import Mathlib

/-!
Shallow embedding of the request-orchestration core of `app.js`
(Nexus Bridge UI).  The embedding models the turn dispatcher
(`handleSend`), the transcript operations (`addMessage`,
`updateMessage`), session creation and recording
(`createNewSession`, the end-of-turn session sync), the web
augmentation block, the lazy image-model retry, and the fenced-code
extraction used by script mode.

Backend HTTP calls are modelled by an oracle (`Backend`): each call
either fails at the network level (a rejected `fetch`, `netFail`) or
yields a response with a status code and a parsed JSON body.
`Date.now()` is modelled by explicit clock inputs, since the source
derives message ids and session ids from it.
-/

namespace Nexus

/-! ## JavaScript string helpers -/

/-- Model of JS string truthiness fallback `o?.x || b` for an optional
string: `none` and the empty string are falsy. -/
def jsOr (o : Option String) (b : String) : String :=
  match o with
  | some s => if s = "" then b else s
  | none => b

/-- Model of `a || b` on strings: the empty string is falsy. -/
def jsOrS (a b : String) : String := if a = "" then b else a

/-- Truthiness of an optional string (used for `data.detail ?`,
`data.saved_to ?`). -/
def jsTruthyOpt (o : Option String) : Bool :=
  match o with
  | some s => !(s == "")
  | none => false

/-- ASCII whitespace recognized by the model of `String.prototype.trim`. -/
def isJsSpace (c : Char) : Bool := c = ' ' || c = '\n' || c = '\t' || c = '\r'

/-- Model of `input.value.trim()` (ASCII whitespace). -/
def jsTrim (s : String) : String :=
  String.mk (((s.toList.dropWhile isJsSpace).reverse.dropWhile isJsSpace).reverse)

/-- Model of `s.slice(0, n)`. -/
def jsSlice (n : Nat) (s : String) : String := String.mk (s.toList.take n)

/-- Model of `Array.prototype.join(sep)`. -/
def joinSep (sep : String) : List String → String
  | [] => ""
  | [x] => x
  | x :: y :: rest => x ++ sep ++ joinSep sep (y :: rest)

/-! ## Data model -/

/-- A transcript message as pushed by `addMessage` in `app.js`:
`{ id, role, content, isTransient }`, where `id = Date.now()`. -/
structure Message where
  id : Nat
  role : String
  content : String
  isTransient : Bool
deriving Repr, DecidableEq

/-- A session record as built by `createNewSession`:
`{ id, title, timestamp, messages }`. -/
structure Session where
  id : String
  title : String
  timestamp : String
  messages : List Message
deriving Repr, DecidableEq

/-- The slice of the `state` object of `app.js` touched by the
dispatcher, together with the settings fields `handleSend` reads. -/
structure AppState where
  sessions : List Session
  currentSessionId : Option String
  messages : List Message
  isConnected : Bool
  isThinking : Bool
  imageModelId : String
  modelId : String
  imageSubfolder : String
  imageModelsPath : String
  scriptMode : Bool
  targetLang : String
  systemOverride : String
  outputFilename : String
  inferenceMode : String
  ollamaUrl : String
  temperature : Nat
  maxTokens : Nat
deriving Repr, DecidableEq

/-- The three checkbox toggles `handleSend` reads from the DOM. -/
structure DomFlags where
  imageToggle : Bool
  webToggle : Bool
  chromeToggle : Bool
deriving Repr, DecidableEq

/-! ## Backend oracle -/

/-- Outcome of one `fetch` (plus `res.json()`): either a network-level
failure (rejected promise) or a response with an HTTP status and a
parsed body. -/
inductive Outcome (α : Type) where
  | netFail (msg : String)
  | resp (status : Nat) (body : α)
deriving Repr, DecidableEq

/-- Model of `Response.ok`: status in the range 200-299. -/
def resOk (status : Nat) : Bool := 200 ≤ status && status < 300

/-- One search hit `{ title, href, body }` returned by `/search`. -/
structure SearchResult where
  title : String
  href : String
  body : String
deriving Repr, DecidableEq

/-- Parsed body of the `/search` response; `results := none` models a
JSON body without a `results` array. -/
structure SearchBody where
  results : Option (List SearchResult)
deriving Repr, DecidableEq

/-- Parsed body of a `/scrape` response. -/
structure ScrapeBody where
  content : Option String
deriving Repr, DecidableEq

/-- Parsed body of an `/api/generate-image` response. -/
structure GenImageBody where
  image : String
  saved_to : Option String
  detail : Option String
deriving Repr, DecidableEq

/-- Parsed body of an `/api/load-image-model` response. -/
structure LoadBody where
  model : String
deriving Repr, DecidableEq

/-- Parsed body of an `/api/chat` response.  `messageContent` models
`data.message?.content`, `response` models `data.response`, `detail`
models `data.detail` (its stringified form), and `messageRaw` models
the `data.message` fallback used in the 400 handler. -/
structure ChatBody where
  messageContent : Option String
  response : Option String
  detail : Option String
  messageRaw : Option String
deriving Repr, DecidableEq

/-- Oracle giving the outcome of each backend call a single turn can
issue.  `genImage1`/`genImage2` are the first and the retried
`/api/generate-image` calls; `scrape i` is the i-th `/scrape` call of
the deep-augmentation fan-out. -/
structure Backend where
  genImage1 : Outcome GenImageBody
  loadImage : Outcome LoadBody
  genImage2 : Outcome GenImageBody
  search : Outcome SearchBody
  scrape : Nat → Outcome ScrapeBody
  chat : Outcome ChatBody
  saveFile : Outcome Unit

/-- Per-turn environment: the `Date.now()` value observed by
`createNewSession` (`sessClock`), the `Date.now()` value observed by
the k-th `addMessage` call of the turn (`msgClock k`), and the backend
oracle. -/
structure Env where
  sessClock : Nat
  msgClock : Nat → Nat
  backend : Backend

/-! ## Observable requests -/

/-- An outbound message `{ role, content }` as sent to `/api/chat`. -/
structure OutMsg where
  role : String
  content : String
deriving Repr, DecidableEq

/-- One outbound backend request issued during a turn, with the payload
fields the source puts in the request body. -/
inductive Request where
  | genImage (prompt subfolder baseDir : String)
  | loadImage (path baseDir : String)
  | imageSubfolders (path : String)
  | search (q : String) (maxResults : Nat)
  | scrape (url : String) (useBrowser : Bool)
  | chat (messages : List OutMsg) (model mode providerUrl : String)
      (temperature maxTokens : Nat)
  | saveFile (filename content : String)
  | persistSessions (sessions : List Session)
deriving Repr, DecidableEq

/-- Is this request a `POST /sessions` (session persistence)? -/
def isPersistReq : Request → Bool
  | Request.persistSessions _ => true
  | _ => false

/-- Is this request a `POST /api/generate-image`? -/
def isGenImageReq : Request → Bool
  | Request.genImage _ _ _ => true
  | _ => false

/-- Is this request a `POST /api/load-image-model`? -/
def isLoadImageReq : Request → Bool
  | Request.loadImage _ _ => true
  | _ => false

/-- Is this request a `POST /api/chat`? -/
def isChatReq : Request → Bool
  | Request.chat _ _ _ _ _ _ => true
  | _ => false

/-- Is this request a `POST /save-file`? -/
def isSaveFileReq : Request → Bool
  | Request.saveFile _ _ => true
  | _ => false

/-- The `model` field of a `POST /api/chat` request, if any. -/
def chatModelOf : Request → Option String
  | Request.chat _ model _ _ _ _ => some model
  | _ => none

/-! ## Transcript operations (`addMessage`, `updateMessage`) -/

/-- Embedding of `addMessage(role, content, isTransient)`: the id is
`Date.now()` (the `now` argument); the message is pushed at the end;
the id is returned. -/
def addMessage (st : AppState) (now : Nat) (role content : String)
    (isTransient : Bool) : AppState × Nat :=
  ({ st with messages :=
      st.messages ++ [{ id := now, role := role, content := content,
                        isTransient := isTransient }] }, now)

/-- Core of `updateMessage`: `state.messages.find(m => m.id === id)`
finds the first message with the given id, then its content is
replaced and `isTransient` is cleared; absent ids are a no-op. -/
def updateFirstMessage : List Message → Nat → String → List Message
  | [], _, _ => []
  | m :: ms, i, c =>
    if m.id = i then { m with content := c, isTransient := false } :: ms
    else m :: updateFirstMessage ms i c

/-- Embedding of `updateMessage(id, content)`. -/
def updateMessage (st : AppState) (i : Nat) (c : String) : AppState :=
  { st with messages := updateFirstMessage st.messages i c }

/-! ## Session operations -/

/-- The fresh session object built by `createNewSession`:
`{ id: Date.now().toString(), title: "New Session", timestamp, messages: [] }`. -/
def mkSession (now : Nat) : Session :=
  { id := toString now, title := "New Session", timestamp := toString now,
    messages := [] }

/-- Embedding of `createNewSession()`: unshift the new session, make it
active, clear the transcript, and (via `saveSessionsToBackend`, which
is a no-op when disconnected) persist the registry. -/
def createNewSession (st : AppState) (now : Nat) : AppState × List Request :=
  let ns := mkSession now
  let st1 := { st with sessions := ns :: st.sessions,
                       currentSessionId := some ns.id, messages := [] }
  (st1, if st1.isConnected then [Request.persistSessions st1.sessions] else [])

/-- Model of `state.sessions.find(s => s.id === cid)`. -/
def sessionById : List Session → String → Option Session
  | [], _ => none
  | s :: rest, cid => if s.id = cid then some s else sessionById rest cid

/-- Title rewrite of the end-of-turn sync: a still-default title is
replaced by `messages[0].content.slice(0, 30)` when the transcript is
nonempty. -/
def rewriteTitle (title : String) (msgs : List Message) : String :=
  match msgs with
  | [] => title
  | m :: _ => if title = "New Session" then jsSlice 30 m.content else title

/-- In-place mutation of the first session matching the active id:
`session.messages = [...state.messages]` plus the title rewrite. -/
def updateSessionRecord : List Session → String → List Message → List Session
  | [], _, _ => []
  | sess :: rest, cid, msgs =>
    if sess.id = cid then
      { sess with messages := msgs, title := rewriteTitle sess.title msgs } :: rest
    else sess :: updateSessionRecord rest cid msgs

/-- Embedding of the `finally` block of the chat branch (lines 766-776):
clear `isThinking`, and if the active session is found, copy the
transcript into it, rewrite a default title, and persist. -/
def finishChatTurn (st : AppState) : AppState × List Request :=
  let st1 := { st with isThinking := false }
  match st1.currentSessionId with
  | none => (st1, [])
  | some cid =>
    match sessionById st1.sessions cid with
    | none => (st1, [])
    | some _ =>
      let newSessions := updateSessionRecord st1.sessions cid st1.messages
      let st2 := { st1 with sessions := newSessions }
      (st2, if st2.isConnected then [Request.persistSessions newSessions] else [])

/-! ## Lazy image-model loading -/

/-- Embedding of `loadImageModel(modelName)`: skipped when
disconnected; issues `POST /api/load-image-model`; on an ok response
the returned model name is stored in `state.imageModelId`; failures
are swallowed. -/
def loadImageModel (st : AppState) (o : Outcome LoadBody) (name : String) :
    AppState × List Request :=
  if !st.isConnected then (st, [])
  else
    match o with
    | Outcome.resp status body =>
      if resOk status then
        ({ st with imageModelId := body.model }, [Request.loadImage name st.imageModelsPath])
      else (st, [Request.loadImage name st.imageModelsPath])
    | Outcome.netFail _ => (st, [Request.loadImage name st.imageModelsPath])

/-! ## Message texts -/

/-- The transient placeholder HTML of the image branch. -/
def imageThinkingHtml : String :=
  "<div class=\"flex items-center gap-2 mono text-xs text-pink-400\"><div class=\"w-1.5 h-1.5 rounded-full bg-pink-400 animate-pulse\"></div> Painting pixels...</div>"

/-- The transient placeholder HTML of the chat branch. -/
def chatThinkingHtml : String :=
  "<div class=\"flex items-center gap-2 mono text-xs text-blue-400\"><div class=\"w-1.5 h-1.5 rounded-full bg-blue-400 animate-pulse\"></div> Thinking...</div>"

/-- Text of the `catch` handler: `## Connection Error\n` plus `e.message`. -/
def connectionErrorContent (msg : String) : String :=
  "## Connection Error\n" ++ msg

/-- Success content of the image branch: image reference, prompt echo,
and the optional save note (`data.saved_to` is truthiness-checked). -/
def imageSuccessContent (imageRef promptText : String) (savedTo : Option String) : String :=
  let saveNote :=
    if jsTruthyOpt savedTo then "\n\n💾 Saved to: `" ++ jsOr savedTo "" ++ "`" else ""
  "![Generated Image](" ++ imageRef ++ ")\n\nPrompt: *" ++ promptText ++ "*" ++ saveNote

/-- Failure content of the image branch: `data.detail || 'Unknown error'`. -/
def imageFailContent (detail : Option String) : String :=
  "## Image Gen Failed\n" ++ jsOr detail "Unknown error"

/-- Content of the formatted 400 block of the chat branch. -/
def chatBadRequestContent (body : ChatBody) : String :=
  let errorDetail :=
    if jsTruthyOpt body.detail then jsOr body.detail ""
    else jsOr body.messageRaw "Unknown Validation Error"
  "## 400 Bad Request\n\n**Details:**\n```json\n" ++ errorDetail ++
    "\n```\n\nCheck the backend console for the full request body trace."

/-- The assistant content taken from a chat response:
`data.message?.content || data.response || "No response."`. -/
def chatResponseContent (body : ChatBody) : String :=
  jsOr body.messageContent (jsOr body.response "No response.")

/-- The system prompt: a coder persona in script mode, otherwise the
override or the default persona. -/
def systemPromptOf (st : AppState) : String :=
  if st.scriptMode then
    "You are a professional coder. Language: " ++ st.targetLang ++ ". " ++ st.systemOverride
  else jsOrS st.systemOverride "You are Nexus."

/-! ## Fenced-code extraction (script mode) -/

/-- The backtick character. -/
def btick : Char := Char.ofNat 96

/-- Is this a JS `\w` word character (ASCII letter, digit, underscore)? -/
def isWordChar (c : Char) : Bool := c.isAlphanum || c = '_'

/-- Does the character list start with three backticks? -/
def startsFence : List Char → Bool
  | a :: b :: c :: _ => a = btick && b = btick && c = btick
  | _ => false

/-- Drop a maximal run of word characters (the `(?:\w+)?` language tag). -/
def dropWordChars : List Char → List Char
  | [] => []
  | c :: cs => if isWordChar c then dropWordChars cs else c :: cs

/-- Lazy capture `([\s\S]*?)` up to the closing fence: the shortest
prefix followed by three backticks, or `none` if no closing fence. -/
def takeUntilFence : List Char → Option (List Char)
  | [] => none
  | c :: cs => if startsFence (c :: cs) then some [] else (takeUntilFence cs).map (c :: ·)

/-- Attempt of the regex ```` ```(?:\w+)?\n([\s\S]*?)``` ```` at the
current position, returning the capture. -/
def matchFenceAt : List Char → Option (List Char)
  | a :: b :: c :: rest =>
    if a = btick && b = btick && c = btick then
      match dropWordChars rest with
      | nl :: body => if nl = '\n' then takeUntilFence body else none
      | [] => none
    else none
  | _ => none

/-- Leftmost match of the fenced-block regex over the whole string. -/
def firstFenceCapture : List Char → Option (List Char)
  | [] => none
  | c :: cs =>
    match matchFenceAt (c :: cs) with
    | some cap => some cap
    | none => firstFenceCapture cs

/-- Embedding of `content.match(/```(?:\w+)?\n([\s\S]*?)```/)?.[1] || content`:
the first fenced block's body, falling back to the whole content when
there is no match or the captured body is the (falsy) empty string. -/
def extractCode (content : String) : String :=
  match firstFenceCapture content.toList with
  | some cap => if cap.isEmpty then content else String.mk cap
  | none => content

/-! ## Web augmentation block -/

/-- Shallow context: `Source: title\nSnippet: body` per result, joined
by blank lines. -/
def shallowContext (rs : List SearchResult) : String :=
  joinSep "\n\n" (rs.map (fun r => "Source: " ++ r.title ++ "\nSnippet: " ++ r.body))

/-- Deep context: `Source: title\nContent: content` for the scraped
pages, joined by a horizontal-rule marker. -/
def deepContext (picked : List SearchResult) (contents : List String) : String :=
  joinSep "\n\n---\n\n"
    (List.zipWith (fun r c => "Source: " ++ r.title ++ "\nContent: " ++ c) picked contents)

/-- Collect the outcomes of the first `n` scrape calls: `none` if any
fetch of the `Promise.all` fan-out rejects, otherwise the list of
`s.content || ""` values. -/
def gatherScrapes (b : Backend) : Nat → Nat → Option (List String)
  | _, 0 => some []
  | i, n + 1 =>
    match b.scrape i with
    | Outcome.netFail _ => none
    | Outcome.resp _ body =>
      (gatherScrapes b (i + 1) n).map (fun cs => jsOr body.content "" :: cs)

/-- Embedding of the web-augmentation block (lines 680-708): returns
the prompt that will be substituted for the user message and the
requests issued.  Any failure falls back to the raw prompt. -/
def augmentPrompt (b : Backend) (deep : Bool) (text : String) :
    String × List Request :=
  let reqSearch := Request.search text 8
  match b.search with
  | Outcome.netFail _ => (text, [reqSearch])
  | Outcome.resp _ body =>
    match body.results with
    | none => (text, [reqSearch])
    | some rs =>
      if rs.length > 0 then
        if deep then
          let picked := rs.take 2
          let scrapeReqs := picked.map (fun r => Request.scrape r.href true)
          match gatherScrapes b 0 picked.length with
          | none => (text, reqSearch :: scrapeReqs)
          | some contents =>
            ("Context:\n" ++ deepContext picked contents ++ "\n\nTask: " ++ text,
             reqSearch :: scrapeReqs)
        else
          ("Context:\n" ++ shallowContext rs ++ "\n\nTask: " ++ text, [reqSearch])
      else (text, [reqSearch])

/-! ## Turn result -/

/-- Observable outcome of one `handleSend` invocation: the final state,
the outbound requests in order, the messages appended to the
transcript, the `updateMessage` calls `(id, content)` in order, whether
the help panel was opened, and whether the web progress indicator was
shown / is still visible at the end. -/
structure TurnResult where
  state : AppState
  requests : List Request
  appends : List Message
  updates : List (Nat × String)
  helpShown : Bool
  webIndicatorShown : Bool
  webIndicatorFinalVisible : Bool
deriving Repr, DecidableEq

/-! ## The two branches of the dispatcher -/

/-- Rendering of an image-generation outcome into the placeholder
content: connection error on a rejected fetch, success block on an ok
status, failure block otherwise. -/
def imageOutcomeContent (text : String) (o : Outcome GenImageBody) : String :=
  match o with
  | Outcome.netFail msg => connectionErrorContent msg
  | Outcome.resp status body =>
    if resOk status then imageSuccessContent body.image text body.saved_to
    else imageFailContent body.detail

/-- Conclusion of the image branch on a response: replace the
placeholder once; on success the subfolder list is refreshed
(`GET /api/image-subfolders`, connectivity-gated). -/
def imageConclude (st : AppState) (tid : Nat) (text : String)
    (o : Outcome GenImageBody) : AppState × List (Nat × String) × List Request :=
  let c := imageOutcomeContent text o
  (updateMessage st tid c, [(tid, c)],
   match o with
   | Outcome.resp status _ =>
     if resOk status && st.isConnected then [Request.imageSubfolders st.imageModelsPath]
     else []
   | Outcome.netFail _ => [])

/-- Embedding of the image branch of `handleSend` (lines 628-674):
append the transient placeholder, call `/api/generate-image`, on a 400
with a known image model id do one load plus one retry, replace the
placeholder from the final outcome, and clear `isThinking`. -/
def imageBranch (env : Env) (st : AppState) (text : String)
    (reqs0 : List Request) : TurnResult :=
  let tid := env.msgClock 0
  let stA := (addMessage st tid "assistant" imageThinkingHtml true).1
  let placeholderMsg : Message :=
    { id := tid, role := "assistant", content := imageThinkingHtml, isTransient := true }
  let req1 := Request.genImage text stA.imageSubfolder stA.imageModelsPath
  let step :=
    match env.backend.genImage1 with
    | Outcome.netFail msg =>
      let r := imageConclude stA tid text (Outcome.netFail msg)
      (r.1, r.2.1, [req1] ++ r.2.2)
    | Outcome.resp status body =>
      if status = 400 && !(stA.imageModelId == "") then
        let lr := loadImageModel stA env.backend.loadImage stA.imageModelId
        let stB := lr.1
        let req2 := Request.genImage text stB.imageSubfolder stB.imageModelsPath
        let r := imageConclude stB tid text env.backend.genImage2
        (r.1, r.2.1, [req1] ++ lr.2 ++ [req2] ++ r.2.2)
      else
        let r := imageConclude stA tid text (Outcome.resp status body)
        (r.1, r.2.1, [req1] ++ r.2.2)
  { state := { step.1 with isThinking := false },
    requests := reqs0 ++ step.2.2,
    appends := [placeholderMsg],
    updates := step.2.1,
    helpShown := false,
    webIndicatorShown := false,
    webIndicatorFinalVisible := false }

/-- The chat response handling of `handleSend` (lines 746-765): 400
block, or content replacement plus the best-effort script-mode file
save (whose network failure is caught by the same `catch`, producing a
second `updateMessage`). -/
def chatOutcomeStep (env : Env) (stB : AppState) (tid : Nat) :
    AppState × List (Nat × String) × List Request :=
  match env.backend.chat with
  | Outcome.netFail msg =>
    let c := connectionErrorContent msg
    (updateMessage stB tid c, [(tid, c)], [])
  | Outcome.resp status body =>
    if status = 400 then
      let c := chatBadRequestContent body
      (updateMessage stB tid c, [(tid, c)], [])
    else
      let content := chatResponseContent body
      let stC := updateMessage stB tid content
      if stC.scriptMode && !(stC.outputFilename == "") then
        let code := extractCode content
        let saveReq := Request.saveFile stC.outputFilename code
        match env.backend.saveFile with
        | Outcome.netFail msg =>
          let c2 := connectionErrorContent msg
          (updateMessage stC tid c2, [(tid, content), (tid, c2)], [saveReq])
        | Outcome.resp _ _ => (stC, [(tid, content)], [saveReq])
      else (stC, [(tid, content)], [])

/-- The state after the user-message append of the chat branch. -/
def chatStA (env : Env) (st : AppState) (text : String) : AppState :=
  (addMessage st (env.msgClock 0) "user" text false).1

/-- The state after the placeholder append of the chat branch. -/
def chatStB (env : Env) (st : AppState) (text : String) : AppState :=
  (addMessage (chatStA env st text) (env.msgClock 1) "assistant" chatThinkingHtml true).1

/-- Embedding of the chat branch of `handleSend` (lines 676-777):
append the user message, optionally augment, build the outbound list
with late substitution at the user message id, append the transient
placeholder, call `/api/chat`, handle the outcome, and run the
`finally` block (clear `isThinking`, record the turn). -/
def chatBranch (env : Env) (flags : DomFlags) (st : AppState) (text : String)
    (reqs0 : List Request) : TurnResult :=
  let uid := env.msgClock 0
  let userMsg : Message := { id := uid, role := "user", content := text, isTransient := false }
  let stA := chatStA env st text
  let aug :=
    if flags.webToggle then augmentPrompt env.backend flags.chromeToggle text
    else (text, [])
  let finalPrompt := aug.1
  let history :=
    (stA.messages.filter (fun m => !m.isTransient)).map
      (fun m => OutMsg.mk m.role (if m.id = uid then finalPrompt else m.content))
  let tid := env.msgClock 1
  let placeholderMsg : Message :=
    { id := tid, role := "assistant", content := chatThinkingHtml, isTransient := true }
  let stB := chatStB env st text
  let fullMessages := OutMsg.mk "system" (systemPromptOf stB) :: history
  let chatReq := Request.chat fullMessages (jsOrS stB.modelId "llama3") stB.inferenceMode
      stB.ollamaUrl stB.temperature stB.maxTokens
  let step := chatOutcomeStep env stB tid
  let fin := finishChatTurn step.1
  { state := fin.1,
    requests := reqs0 ++ aug.2 ++ [chatReq] ++ step.2.2 ++ fin.2,
    appends := [userMsg, placeholderMsg],
    updates := step.2.1,
    helpShown := false,
    webIndicatorShown := flags.webToggle,
    webIndicatorFinalVisible := false }

/-! ## The dispatcher -/

/-- Result of a rejected dispatch: nothing happens. -/
def rejectedResult (st : AppState) (helpShown : Bool) : TurnResult :=
  { state := st, requests := [], appends := [], updates := [],
    helpShown := helpShown, webIndicatorShown := false,
    webIndicatorFinalVisible := false }

/-- Body of an accepted turn: ensure an active session exists, set
`isThinking`, and run the selected branch. -/
def dispatchTurn (env : Env) (flags : DomFlags) (text : String) (st : AppState) :
    TurnResult :=
  let created :=
    match st.currentSessionId with
    | none => createNewSession st env.sessClock
    | some _ => (st, [])
  let st1 := { created.1 with isThinking := true }
  if flags.imageToggle then imageBranch env st1 text created.2
  else chatBranch env flags st1 text created.2

/-- Embedding of `handleSend()` (lines 611-777): trim the input, reject
on empty input or `isThinking`, reject with the help panel when
disconnected, otherwise dispatch the turn. -/
def handleSend (env : Env) (flags : DomFlags) (rawInput : String) (st : AppState) :
    TurnResult :=
  let text := jsTrim rawInput
  if text = "" || st.isThinking then rejectedResult st false
  else if !st.isConnected then rejectedResult st true
  else dispatchTurn env flags text st

/-! ## Sequences of session creation (for the SessionStore claims) -/

/-- Apply `createNewSession` once per clock value, in order. -/
def createSeq (st : AppState) : List Nat → AppState
  | [] => st
  | t :: ts => createSeq (createNewSession st t).1 ts

/-! ## Derived descriptions used in theorem statements -/

/-- The transcript after the ensure-session step: cleared when a new
session had to be created, unchanged otherwise. -/
def transcriptAfterEnsure (st : AppState) : List Message :=
  match st.currentSessionId with
  | some _ => st.messages
  | none => []

/-- The active session id after the ensure-session step. -/
def activeCidAfterEnsure (st : AppState) (env : Env) : String :=
  match st.currentSessionId with
  | some c => c
  | none => (mkSession env.sessClock).id

/-- The session registry after the ensure-session step. -/
def sessionsAfterEnsure (st : AppState) (env : Env) : List Session :=
  match st.currentSessionId with
  | some _ => st.sessions
  | none => mkSession env.sessClock :: st.sessions

/-- The state after the ensure-session step with `isThinking` set, as
the selected branch receives it. -/
def ensuredState (env : Env) (st : AppState) : AppState :=
  { (match st.currentSessionId with
     | none => (createNewSession st env.sessClock).1
     | some _ => st) with isThinking := true }

/-- The requests issued by the ensure-session step. -/
def ensureReqs (env : Env) (st : AppState) : List Request :=
  match st.currentSessionId with
  | none => (createNewSession st env.sessClock).2
  | some _ => []

/-- Does the augmentation block fall back to the raw prompt?  True on a
search network failure, a missing or empty result list, or (in deep
mode) a rejected scrape in the `Promise.all` fan-out. -/
def augmentationFell (b : Backend) (deep : Bool) : Bool :=
  match b.search with
  | Outcome.netFail _ => true
  | Outcome.resp _ body =>
    match body.results with
    | none => true
    | some rs =>
      if rs.length > 0 then
        deep && (gatherScrapes b 0 (rs.take 2).length).isNone
      else true

/-- The double-update hazard of the chat branch: a successful chat
response followed by a network-level failure of the script-mode file
save makes the `catch` replace the placeholder a second time. -/
def saveFailSecondUpdate (env : Env) (st : AppState) : Bool :=
  match env.backend.chat, env.backend.saveFile with
  | Outcome.resp status _, Outcome.netFail _ =>
    !(status == 400) && st.scriptMode && !(st.outputFilename == "")
  | _, _ => false

/-! ## Concrete fixtures for witnesses and counterexamples -/

/-- A plain pre-existing session. -/
def sampleSession : Session :=
  { id := "1", title := "New Session", timestamp := "0", messages := [] }

/-- A connected, idle application state with one active session. -/
def baseState : AppState :=
  { sessions := [sampleSession], currentSessionId := some "1", messages := [],
    isConnected := true, isThinking := false,
    imageModelId := "sdxl.safetensors", modelId := "llama3",
    imageSubfolder := "", imageModelsPath := "D:/images",
    scriptMode := false, targetLang := "Roblox Lua", systemOverride := "",
    outputFilename := "", inferenceMode := "proxy",
    ollamaUrl := "http://localhost:11434/api/chat",
    temperature := 7, maxTokens := 1024 }

/-- A benign backend oracle. -/
def stubBackend : Backend :=
  { genImage1 := Outcome.resp 200 { image := "data:img", saved_to := none, detail := none },
    loadImage := Outcome.resp 200 { model := "sdxl.safetensors" },
    genImage2 := Outcome.resp 200 { image := "data:img2", saved_to := none, detail := none },
    search := Outcome.resp 200 { results := none },
    scrape := fun _ => Outcome.resp 200 { content := none },
    chat := Outcome.resp 200 { messageContent := some "Hi there", response := none,
                               detail := none, messageRaw := none },
    saveFile := Outcome.resp 200 () }

/-- A benign environment with distinct clock values. -/
def baseEnv : Env :=
  { sessClock := 100, msgClock := fun k => 200 + k, backend := stubBackend }

/-- A disconnected variant of the base state. -/
def offState : AppState := { baseState with isConnected := false }

/-- A state with script mode on and an output filename configured. -/
def scriptState : AppState :=
  { baseState with scriptMode := true, outputFilename := "script.lua" }

/-- A state whose configured chat model id is the empty string. -/
def noModelState : AppState := { baseState with modelId := "" }

/-- A 400 body reporting that no image model is loaded. -/
def noModelBody : GenImageBody :=
  { image := "", saved_to := none, detail := some "No model loaded" }

/-- An environment whose first image-generation call returns HTTP 400. -/
def env400 : Env :=
  { baseEnv with backend := { stubBackend with genImage1 := Outcome.resp 400 noModelBody } }

/-- The single WX/Sunny search hit used by the shallow-augmentation scenario. -/
def wxHit : SearchResult := { title := "WX", href := "http://wx", body := "Sunny" }

/-- A search body holding exactly the WX/Sunny hit. -/
def wxSearchBody : SearchBody := { results := some [wxHit] }

/-- An environment whose search returns the single result WX/Sunny. -/
def envWX : Env :=
  { baseEnv with backend := { stubBackend with search := Outcome.resp 200 wxSearchBody } }

/-- An environment whose search call fails at the network level. -/
def envSearchFail : Env :=
  { baseEnv with backend := { stubBackend with search := Outcome.netFail "ECONNREFUSED" } }

/-- A chat body whose content carries one fenced code block. -/
def fenceChatBody : ChatBody :=
  { messageContent := some "Sure:\n```lua\nprint(1)\n```",
    response := none, detail := none, messageRaw := none }

/-- An environment whose chat response contains one fenced code block. -/
def envFence : Env :=
  { baseEnv with backend := { stubBackend with chat := Outcome.resp 200 fenceChatBody } }

/-- A chat body whose content carries a fenced code block with an empty body. -/
def emptyFenceChatBody : ChatBody :=
  { messageContent := some "Hi\n```lua\n```",
    response := none, detail := none, messageRaw := none }

/-- An environment whose chat response contains a fenced code block with
an empty body. -/
def envEmptyFence : Env :=
  { baseEnv with backend := { stubBackend with chat := Outcome.resp 200 emptyFenceChatBody } }

/-! ## Projection lemmas -/

@[simp] theorem updateMessage_sessions (st : AppState) (i : Nat) (c : String) :
    (updateMessage st i c).sessions = st.sessions := rfl

@[simp] theorem updateMessage_currentSessionId (st : AppState) (i : Nat) (c : String) :
    (updateMessage st i c).currentSessionId = st.currentSessionId := rfl

@[simp] theorem updateMessage_isConnected (st : AppState) (i : Nat) (c : String) :
    (updateMessage st i c).isConnected = st.isConnected := rfl

@[simp] theorem updateMessage_isThinking (st : AppState) (i : Nat) (c : String) :
    (updateMessage st i c).isThinking = st.isThinking := rfl

@[simp] theorem updateMessage_scriptMode (st : AppState) (i : Nat) (c : String) :
    (updateMessage st i c).scriptMode = st.scriptMode := rfl

@[simp] theorem updateMessage_outputFilename (st : AppState) (i : Nat) (c : String) :
    (updateMessage st i c).outputFilename = st.outputFilename := rfl

@[simp] theorem updateMessage_messages (st : AppState) (i : Nat) (c : String) :
    (updateMessage st i c).messages = updateFirstMessage st.messages i c := rfl

@[simp] theorem addMessage_fst_messages (st : AppState) (n : Nat) (r c : String) (t : Bool) :
    ((addMessage st n r c t).1).messages
      = st.messages ++ [{ id := n, role := r, content := c, isTransient := t }] := rfl

@[simp] theorem addMessage_fst_sessions (st : AppState) (n : Nat) (r c : String) (t : Bool) :
    ((addMessage st n r c t).1).sessions = st.sessions := rfl

@[simp] theorem addMessage_fst_currentSessionId (st : AppState) (n : Nat) (r c : String) (t : Bool) :
    ((addMessage st n r c t).1).currentSessionId = st.currentSessionId := rfl

@[simp] theorem addMessage_fst_isConnected (st : AppState) (n : Nat) (r c : String) (t : Bool) :
    ((addMessage st n r c t).1).isConnected = st.isConnected := rfl

@[simp] theorem addMessage_snd (st : AppState) (n : Nat) (r c : String) (t : Bool) :
    (addMessage st n r c t).2 = n := rfl

/-! ## Lemmas about `updateFirstMessage` -/

theorem updateFirstMessage_append_fresh (ms ns : List Message) (i : Nat) (c : String)
    (h : ∀ m ∈ ms, m.id ≠ i) :
    updateFirstMessage (ms ++ ns) i c = ms ++ updateFirstMessage ns i c := by
  induction ms with
  | nil => simp
  | cons m ms ih =>
    have hm : ¬ m.id = i := h m (List.mem_cons_self m ms)
    simp only [List.cons_append, updateFirstMessage, if_neg hm, List.cons.injEq, true_and]
    exact ih (fun x hx => h x (List.mem_cons_of_mem m hx))

theorem updateFirstMessage_snoc_hit (ms : List Message) (m : Message) (i : Nat) (c : String)
    (h : ∀ x ∈ ms, x.id ≠ i) (hm : m.id = i) :
    updateFirstMessage (ms ++ [m]) i c
      = ms ++ [{ m with content := c, isTransient := false }] := by
  rw [updateFirstMessage_append_fresh ms [m] i c h]
  simp [updateFirstMessage, hm]

/-! ## Lemmas about the ensure-session step -/

theorem dispatchTurn_eq (env : Env) (flags : DomFlags) (text : String) (st : AppState) :
    dispatchTurn env flags text st
      = if flags.imageToggle then imageBranch env (ensuredState env st) text (ensureReqs env st)
        else chatBranch env flags (ensuredState env st) text (ensureReqs env st) := by
  unfold dispatchTurn ensuredState ensureReqs
  cases st.currentSessionId <;> rfl

theorem handleSend_accepted (env : Env) (flags : DomFlags) (raw : String) (st : AppState)
    (hne : ¬ jsTrim raw = "") (hth : st.isThinking = false) (hco : st.isConnected = true) :
    handleSend env flags raw st = dispatchTurn env flags (jsTrim raw) st := by
  unfold handleSend
  rw [if_neg, if_neg]
  · simp [hco]
  · simp [hne, hth]

@[simp] theorem ensuredState_messages (env : Env) (st : AppState) :
    (ensuredState env st).messages = transcriptAfterEnsure st := by
  unfold ensuredState transcriptAfterEnsure createNewSession
  cases st.currentSessionId <;> rfl

@[simp] theorem ensuredState_sessions (env : Env) (st : AppState) :
    (ensuredState env st).sessions = sessionsAfterEnsure st env := by
  unfold ensuredState sessionsAfterEnsure createNewSession
  cases st.currentSessionId <;> rfl

@[simp] theorem ensuredState_currentSessionId (env : Env) (st : AppState) :
    (ensuredState env st).currentSessionId = some (activeCidAfterEnsure st env) := by
  unfold ensuredState activeCidAfterEnsure createNewSession
  cases h : st.currentSessionId <;> simp [h]

@[simp] theorem ensuredState_isConnected (env : Env) (st : AppState) :
    (ensuredState env st).isConnected = st.isConnected := by
  unfold ensuredState createNewSession
  cases st.currentSessionId <;> rfl

@[simp] theorem ensuredState_scriptMode (env : Env) (st : AppState) :
    (ensuredState env st).scriptMode = st.scriptMode := by
  unfold ensuredState createNewSession
  cases st.currentSessionId <;> rfl

@[simp] theorem ensuredState_outputFilename (env : Env) (st : AppState) :
    (ensuredState env st).outputFilename = st.outputFilename := by
  unfold ensuredState createNewSession
  cases st.currentSessionId <;> rfl

@[simp] theorem ensuredState_imageModelId (env : Env) (st : AppState) :
    (ensuredState env st).imageModelId = st.imageModelId := by
  unfold ensuredState createNewSession
  cases st.currentSessionId <;> rfl

@[simp] theorem ensuredState_imageSubfolder (env : Env) (st : AppState) :
    (ensuredState env st).imageSubfolder = st.imageSubfolder := by
  unfold ensuredState createNewSession
  cases st.currentSessionId <;> rfl

@[simp] theorem ensuredState_imageModelsPath (env : Env) (st : AppState) :
    (ensuredState env st).imageModelsPath = st.imageModelsPath := by
  unfold ensuredState createNewSession
  cases st.currentSessionId <;> rfl

@[simp] theorem ensuredState_modelId (env : Env) (st : AppState) :
    (ensuredState env st).modelId = st.modelId := by
  unfold ensuredState createNewSession
  cases st.currentSessionId <;> rfl

@[simp] theorem ensuredState_inferenceMode (env : Env) (st : AppState) :
    (ensuredState env st).inferenceMode = st.inferenceMode := by
  unfold ensuredState createNewSession
  cases st.currentSessionId <;> rfl

@[simp] theorem ensuredState_ollamaUrl (env : Env) (st : AppState) :
    (ensuredState env st).ollamaUrl = st.ollamaUrl := by
  unfold ensuredState createNewSession
  cases st.currentSessionId <;> rfl

@[simp] theorem ensuredState_temperature (env : Env) (st : AppState) :
    (ensuredState env st).temperature = st.temperature := by
  unfold ensuredState createNewSession
  cases st.currentSessionId <;> rfl

@[simp] theorem ensuredState_maxTokens (env : Env) (st : AppState) :
    (ensuredState env st).maxTokens = st.maxTokens := by
  unfold ensuredState createNewSession
  cases st.currentSessionId <;> rfl

@[simp] theorem ensuredState_targetLang (env : Env) (st : AppState) :
    (ensuredState env st).targetLang = st.targetLang := by
  unfold ensuredState createNewSession
  cases st.currentSessionId <;> rfl

@[simp] theorem ensuredState_systemOverride (env : Env) (st : AppState) :
    (ensuredState env st).systemOverride = st.systemOverride := by
  unfold ensuredState createNewSession
  cases st.currentSessionId <;> rfl

theorem transcriptAfterEnsure_sub (st : AppState) :
    ∀ m ∈ transcriptAfterEnsure st, m ∈ st.messages := by
  unfold transcriptAfterEnsure
  cases st.currentSessionId <;> simp

/-! ## Lemmas about `chatOutcomeStep` -/

theorem chatOutcomeStep_sessions (env : Env) (stB : AppState) (tid : Nat) :
    (chatOutcomeStep env stB tid).1.sessions = stB.sessions := by
  unfold chatOutcomeStep
  cases env.backend.chat with
  | netFail msg => simp
  | resp status body =>
    dsimp only
    split
    · simp
    · split
      · cases env.backend.saveFile <;> simp
      · simp

theorem chatOutcomeStep_currentSessionId (env : Env) (stB : AppState) (tid : Nat) :
    (chatOutcomeStep env stB tid).1.currentSessionId = stB.currentSessionId := by
  unfold chatOutcomeStep
  cases env.backend.chat with
  | netFail msg => simp
  | resp status body =>
    dsimp only
    split
    · simp
    · split
      · cases env.backend.saveFile <;> simp
      · simp

theorem chatOutcomeStep_isConnected (env : Env) (stB : AppState) (tid : Nat) :
    (chatOutcomeStep env stB tid).1.isConnected = stB.isConnected := by
  unfold chatOutcomeStep
  cases env.backend.chat with
  | netFail msg => simp
  | resp status body =>
    dsimp only
    split
    · simp
    · split
      · cases env.backend.saveFile <;> simp
      · simp

theorem chatOutcomeStep_updates_fst (env : Env) (stB : AppState) (tid : Nat) :
    ((chatOutcomeStep env stB tid).2.1.map Prod.fst = [tid]) ∨
    ((chatOutcomeStep env stB tid).2.1.map Prod.fst = [tid, tid] ∧
      saveFailSecondUpdate env stB = true) := by
  unfold chatOutcomeStep saveFailSecondUpdate
  cases env.backend.chat with
  | netFail msg => left; simp
  | resp status body =>
    dsimp only
    split
    · left; simp
    · rename_i hs
      split
      · rename_i hscript
        cases env.backend.saveFile with
        | netFail m =>
          right
          refine ⟨by simp, ?_⟩
          simp only [updateMessage_scriptMode, updateMessage_outputFilename] at hscript
          simp_all
        | resp s2 b2 => left; simp
      · left; simp

/-! ## Lemmas about `finishChatTurn` -/

theorem finishChatTurn_isThinking (st : AppState) :
    (finishChatTurn st).1.isThinking = false := by
  unfold finishChatTurn
  cases st.currentSessionId with
  | none => simp
  | some cid =>
    dsimp only
    cases sessionById st.sessions cid <;> simp

theorem finishChatTurn_found (st : AppState) (cid : String)
    (hc : st.currentSessionId = some cid) (hconn : st.isConnected = true)
    (hf : (sessionById st.sessions cid).isSome = true) :
    finishChatTurn st =
      ({ st with isThinking := false,
                 sessions := updateSessionRecord st.sessions cid st.messages },
       [Request.persistSessions (updateSessionRecord st.sessions cid st.messages)]) := by
  unfold finishChatTurn
  rw [hc]
  dsimp only
  cases h : sessionById st.sessions cid with
  | none => rw [h] at hf; simp at hf
  | some s => simp [hconn]

theorem finishChatTurn_requests (st : AppState) :
    (finishChatTurn st).2 = [] ∨
    (finishChatTurn st).2
      = [Request.persistSessions (finishChatTurn st).1.sessions] := by
  unfold finishChatTurn
  cases st.currentSessionId with
  | none => left; rfl
  | some cid =>
    dsimp only
    cases sessionById st.sessions cid with
    | none => left; rfl
    | some s =>
      by_cases h : st.isConnected = true
      · right; simp [h]
      · left; simp at h; simp [h]

/-! ## Lemmas about `loadImageModel` -/

theorem loadImageModel_reqs (st : AppState) (o : Outcome LoadBody) (name : String)
    (hconn : st.isConnected = true) :
    (loadImageModel st o name).2 = [Request.loadImage name st.imageModelsPath] := by
  unfold loadImageModel
  split
  · rename_i hx
    rw [hconn] at hx
    simp at hx
  · cases o with
    | netFail m => rfl
    | resp s b => dsimp only; split <;> rfl

theorem loadImageModel_fields (st : AppState) (o : Outcome LoadBody) (name : String) :
    (loadImageModel st o name).1.imageSubfolder = st.imageSubfolder ∧
    (loadImageModel st o name).1.imageModelsPath = st.imageModelsPath ∧
    (loadImageModel st o name).1.isConnected = st.isConnected ∧
    (loadImageModel st o name).1.messages = st.messages ∧
    (loadImageModel st o name).1.sessions = st.sessions := by
  unfold loadImageModel
  split
  · simp
  · cases o with
    | netFail m => simp
    | resp s b => dsimp only; split <;> simp

theorem loadImageModel_fst_imageSubfolder (st : AppState) (o : Outcome LoadBody) (name : String) :
    (loadImageModel st o name).1.imageSubfolder = st.imageSubfolder :=
  (loadImageModel_fields st o name).1

theorem loadImageModel_fst_imageModelsPath (st : AppState) (o : Outcome LoadBody) (name : String) :
    (loadImageModel st o name).1.imageModelsPath = st.imageModelsPath :=
  (loadImageModel_fields st o name).2.1

theorem loadImageModel_fst_isConnected (st : AppState) (o : Outcome LoadBody) (name : String) :
    (loadImageModel st o name).1.isConnected = st.isConnected :=
  (loadImageModel_fields st o name).2.2.1

theorem loadImageModel_fst_messages (st : AppState) (o : Outcome LoadBody) (name : String) :
    (loadImageModel st o name).1.messages = st.messages :=
  (loadImageModel_fields st o name).2.2.2.1

theorem loadImageModel_fst_sessions (st : AppState) (o : Outcome LoadBody) (name : String) :
    (loadImageModel st o name).1.sessions = st.sessions :=
  (loadImageModel_fields st o name).2.2.2.2

theorem ensureReqs_of_isSome (env : Env) (st : AppState)
    (h : st.currentSessionId.isSome = true) : ensureReqs env st = [] := by
  unfold ensureReqs
  cases hc : st.currentSessionId with
  | none => rw [hc] at h; simp at h
  | some c => rfl

theorem imageConclude_updates (st : AppState) (tid : Nat) (text : String)
    (o : Outcome GenImageBody) :
    (imageConclude st tid text o).2.1 = [(tid, imageOutcomeContent text o)] := by
  unfold imageConclude
  cases o <;> rfl

theorem imageConclude_state_messages (st : AppState) (tid : Nat) (text : String)
    (o : Outcome GenImageBody) :
    (imageConclude st tid text o).1.messages
      = updateFirstMessage st.messages tid (imageOutcomeContent text o) := by
  unfold imageConclude
  cases o <;> rfl

theorem imageConclude_state_sessions (st : AppState) (tid : Nat) (text : String)
    (o : Outcome GenImageBody) :
    (imageConclude st tid text o).1.sessions = st.sessions := by
  unfold imageConclude
  cases o <;> rfl

/-! ## Classification of the requests each component issues -/

theorem ensureReqs_classify (env : Env) (st : AppState) :
    (ensureReqs env st) = [] ∨
    ∃ ss, (ensureReqs env st) = [Request.persistSessions ss] := by
  unfold ensureReqs createNewSession
  cases st.currentSessionId with
  | none =>
    dsimp only
    by_cases h : st.isConnected = true
    · right
      refine ⟨mkSession env.sessClock :: st.sessions, ?_⟩
      simp [h]
    · left
      simp at h
      simp [h]
  | some c => left; rfl

theorem augmentPrompt_reqs_classify (b : Backend) (deep : Bool) (text : String) :
    ∀ q ∈ (augmentPrompt b deep text).2,
      isChatReq q = false ∧ isSaveFileReq q = false ∧ isPersistReq q = false ∧
      isGenImageReq q = false ∧ isLoadImageReq q = false ∧ chatModelOf q = none := by
  unfold augmentPrompt
  cases b.search with
  | netFail m =>
    intro q hq
    simp at hq
    subst hq
    exact ⟨rfl, rfl, rfl, rfl, rfl, rfl⟩
  | resp s body =>
    dsimp only
    cases body.results with
    | none =>
      intro q hq
      simp at hq
      subst hq
      exact ⟨rfl, rfl, rfl, rfl, rfl, rfl⟩
    | some rs =>
      dsimp only
      split
      · split
        · split
          · intro q hq
            rcases List.mem_cons.mp hq with hq | hq
            · subst hq; exact ⟨rfl, rfl, rfl, rfl, rfl, rfl⟩
            · rcases List.mem_map.mp hq with ⟨r, _, hq⟩
              subst hq
              exact ⟨rfl, rfl, rfl, rfl, rfl, rfl⟩
          · intro q hq
            rcases List.mem_cons.mp hq with hq | hq
            · subst hq; exact ⟨rfl, rfl, rfl, rfl, rfl, rfl⟩
            · rcases List.mem_map.mp hq with ⟨r, _, hq⟩
              subst hq
              exact ⟨rfl, rfl, rfl, rfl, rfl, rfl⟩
        · intro q hq
          simp at hq
          subst hq
          exact ⟨rfl, rfl, rfl, rfl, rfl, rfl⟩
      · intro q hq
        simp at hq
        subst hq
        exact ⟨rfl, rfl, rfl, rfl, rfl, rfl⟩

theorem chatOutcomeStep_reqs_classify (env : Env) (stB : AppState) (tid : Nat) :
    (chatOutcomeStep env stB tid).2.2 = [] ∨
    ∃ c, (chatOutcomeStep env stB tid).2.2 = [Request.saveFile stB.outputFilename c] := by
  unfold chatOutcomeStep
  cases env.backend.chat with
  | netFail m => left; rfl
  | resp status body =>
    dsimp only
    split
    · left; rfl
    · split
      · cases env.backend.saveFile <;> (right; simp)
      · left; rfl

theorem imageConclude_reqs_classify (st : AppState) (tid : Nat) (text : String)
    (o : Outcome GenImageBody) :
    ∀ q ∈ (imageConclude st tid text o).2.2,
      isGenImageReq q = false ∧ isLoadImageReq q = false ∧ isPersistReq q = false ∧
      isChatReq q = false ∧ isSaveFileReq q = false := by
  unfold imageConclude
  cases o with
  | netFail m => intro q hq; simp at hq
  | resp s b =>
    dsimp only
    split
    · intro q hq
      simp at hq
      subst hq
      exact ⟨rfl, rfl, rfl, rfl, rfl⟩
    · intro q hq
      simp at hq

/-! ## Lemmas about `createSeq` -/

theorem createNewSession_fst_sessions (st : AppState) (t : Nat) :
    (createNewSession st t).1.sessions = mkSession t :: st.sessions := rfl

theorem createNewSession_fst_currentSessionId (st : AppState) (t : Nat) :
    (createNewSession st t).1.currentSessionId = some (mkSession t).id := rfl

theorem createSeq_sessions (ts : List Nat) (st : AppState) :
    (createSeq st ts).sessions = ts.reverse.map mkSession ++ st.sessions := by
  induction ts generalizing st with
  | nil => simp [createSeq]
  | cons t ts ih =>
    rw [createSeq, ih, createNewSession_fst_sessions]
    simp [List.map_append]

theorem createSeq_append (as bs : List Nat) (st : AppState) :
    createSeq st (as ++ bs) = createSeq (createSeq st as) bs := by
  induction as generalizing st with
  | nil => simp [createSeq]
  | cons a as ih => rw [List.cons_append, createSeq, createSeq, ih]

/-! ## Lemmas about the outbound message list -/

theorem history_substitution (msgs0 : List Message) (user : Message) (uid : Nat) (fp : String)
    (hfresh : ∀ m ∈ msgs0, m.id ≠ uid) (huser : user.id = uid) (hut : user.isTransient = false) :
    ((msgs0 ++ [user]).filter (fun m => !m.isTransient)).map
        (fun m => OutMsg.mk m.role (if m.id = uid then fp else m.content))
      = (msgs0.filter (fun m => !m.isTransient)).map (fun m => OutMsg.mk m.role m.content)
        ++ [OutMsg.mk user.role fp] := by
  rw [List.filter_append, List.map_append]
  congr 1
  · apply List.map_congr_left
    intro m hm
    have hm0 : m ∈ msgs0 := List.mem_of_mem_filter hm
    rw [if_neg (hfresh m hm0)]
  · simp [List.filter, hut, huser]

theorem take_length_succ_append (xs : List String) (a b : String) :
    (xs ++ [a, b]).take (xs.length + 1) = xs ++ [a] := by
  induction xs with
  | nil => rfl
  | cons x xs ih => simpa using ih

/-! ## Lemmas about the augmentation block -/

theorem augmentPrompt_raw_of_fell (b : Backend) (deep : Bool) (text : String)
    (h : augmentationFell b deep = true) :
    (augmentPrompt b deep text).1 = text := by
  unfold augmentPrompt
  unfold augmentationFell at h
  cases hs : b.search with
  | netFail m => rfl
  | resp s body =>
    rw [hs] at h
    dsimp only at h ⊢
    cases hr : body.results with
    | none => rfl
    | some rs =>
      rw [hr] at h
      dsimp only at h ⊢
      split
      · rename_i hlen
        rw [if_pos hlen] at h
        cases hd : deep with
        | false => rw [hd] at h; simp at h
        | true =>
          rw [hd] at h
          simp only [Bool.true_and] at h
          cases hg : gatherScrapes b 0 (rs.take 2).length with
          | none => rfl
          | some cs => rw [hg] at h; simp at h
      · rfl

theorem augmentPrompt_shallow_single (b : Backend) (text ttl href bdy : String)
    (hs : b.search = Outcome.resp 200 { results := some [⟨ttl, href, bdy⟩] }) :
    augmentPrompt b false text
      = ("Context:\nSource: " ++ ttl ++ "\nSnippet: " ++ bdy ++ "\n\nTask: " ++ text,
         [Request.search text 8]) := by
  unfold augmentPrompt
  rw [hs]
  simp only [shallowContext, joinSep, List.map_cons, List.map_nil, String.append_assoc]
  rw [← String.append_assoc]
  exact Prod.ext (by rfl) (by simp)

/-! ## More projection lemmas (fields untouched by `addMessage`) -/

@[simp] theorem addMessage_fst_modelId (st : AppState) (n : Nat) (r c : String) (t : Bool) :
    ((addMessage st n r c t).1).modelId = st.modelId := rfl

@[simp] theorem addMessage_fst_inferenceMode (st : AppState) (n : Nat) (r c : String) (t : Bool) :
    ((addMessage st n r c t).1).inferenceMode = st.inferenceMode := rfl

@[simp] theorem addMessage_fst_ollamaUrl (st : AppState) (n : Nat) (r c : String) (t : Bool) :
    ((addMessage st n r c t).1).ollamaUrl = st.ollamaUrl := rfl

@[simp] theorem addMessage_fst_temperature (st : AppState) (n : Nat) (r c : String) (t : Bool) :
    ((addMessage st n r c t).1).temperature = st.temperature := rfl

@[simp] theorem addMessage_fst_maxTokens (st : AppState) (n : Nat) (r c : String) (t : Bool) :
    ((addMessage st n r c t).1).maxTokens = st.maxTokens := rfl

@[simp] theorem addMessage_fst_scriptMode (st : AppState) (n : Nat) (r c : String) (t : Bool) :
    ((addMessage st n r c t).1).scriptMode = st.scriptMode := rfl

@[simp] theorem addMessage_fst_outputFilename (st : AppState) (n : Nat) (r c : String) (t : Bool) :
    ((addMessage st n r c t).1).outputFilename = st.outputFilename := rfl

@[simp] theorem addMessage_fst_targetLang (st : AppState) (n : Nat) (r c : String) (t : Bool) :
    ((addMessage st n r c t).1).targetLang = st.targetLang := rfl

@[simp] theorem addMessage_fst_systemOverride (st : AppState) (n : Nat) (r c : String) (t : Bool) :
    ((addMessage st n r c t).1).systemOverride = st.systemOverride := rfl

@[simp] theorem addMessage_fst_imageModelId (st : AppState) (n : Nat) (r c : String) (t : Bool) :
    ((addMessage st n r c t).1).imageModelId = st.imageModelId := rfl

@[simp] theorem addMessage_fst_imageSubfolder (st : AppState) (n : Nat) (r c : String) (t : Bool) :
    ((addMessage st n r c t).1).imageSubfolder = st.imageSubfolder := rfl

@[simp] theorem addMessage_fst_imageModelsPath (st : AppState) (n : Nat) (r c : String) (t : Bool) :
    ((addMessage st n r c t).1).imageModelsPath = st.imageModelsPath := rfl

@[simp] theorem addMessage_fst_isThinking (st : AppState) (n : Nat) (r c : String) (t : Bool) :
    ((addMessage st n r c t).1).isThinking = st.isThinking := rfl

/-! ## Projection lemmas for the chat-branch intermediate states -/

@[simp] theorem chatStA_messages (env : Env) (st : AppState) (text : String) :
    (chatStA env st text).messages
      = st.messages ++ [{ id := env.msgClock 0, role := "user", content := text,
                          isTransient := false }] := rfl

@[simp] theorem chatStB_messages (env : Env) (st : AppState) (text : String) :
    (chatStB env st text).messages
      = st.messages ++ [{ id := env.msgClock 0, role := "user", content := text,
                          isTransient := false },
                        { id := env.msgClock 1, role := "assistant",
                          content := chatThinkingHtml, isTransient := true }] := by
  simp [chatStB, chatStA]

@[simp] theorem chatStB_sessions (env : Env) (st : AppState) (text : String) :
    (chatStB env st text).sessions = st.sessions := rfl

@[simp] theorem chatStB_currentSessionId (env : Env) (st : AppState) (text : String) :
    (chatStB env st text).currentSessionId = st.currentSessionId := rfl

@[simp] theorem chatStB_isConnected (env : Env) (st : AppState) (text : String) :
    (chatStB env st text).isConnected = st.isConnected := rfl

@[simp] theorem chatStB_isThinking (env : Env) (st : AppState) (text : String) :
    (chatStB env st text).isThinking = st.isThinking := rfl

@[simp] theorem chatStB_scriptMode (env : Env) (st : AppState) (text : String) :
    (chatStB env st text).scriptMode = st.scriptMode := rfl

@[simp] theorem chatStB_outputFilename (env : Env) (st : AppState) (text : String) :
    (chatStB env st text).outputFilename = st.outputFilename := rfl

@[simp] theorem chatStB_modelId (env : Env) (st : AppState) (text : String) :
    (chatStB env st text).modelId = st.modelId := rfl

@[simp] theorem chatStB_inferenceMode (env : Env) (st : AppState) (text : String) :
    (chatStB env st text).inferenceMode = st.inferenceMode := rfl

@[simp] theorem chatStB_ollamaUrl (env : Env) (st : AppState) (text : String) :
    (chatStB env st text).ollamaUrl = st.ollamaUrl := rfl

@[simp] theorem chatStB_temperature (env : Env) (st : AppState) (text : String) :
    (chatStB env st text).temperature = st.temperature := rfl

@[simp] theorem chatStB_maxTokens (env : Env) (st : AppState) (text : String) :
    (chatStB env st text).maxTokens = st.maxTokens := rfl

@[simp] theorem chatStB_targetLang (env : Env) (st : AppState) (text : String) :
    (chatStB env st text).targetLang = st.targetLang := rfl

@[simp] theorem chatStB_systemOverride (env : Env) (st : AppState) (text : String) :
    (chatStB env st text).systemOverride = st.systemOverride := rfl

/-! ## Unconditional equations for `chatOutcomeStep` -/

theorem chatOutcomeStep_msgs_eq (env : Env) (stB : AppState) (tid : Nat) :
    (chatOutcomeStep env stB tid).1.messages
      = match env.backend.chat with
        | Outcome.netFail msg => updateFirstMessage stB.messages tid (connectionErrorContent msg)
        | Outcome.resp status body =>
          if status = 400 then updateFirstMessage stB.messages tid (chatBadRequestContent body)
          else
            if stB.scriptMode && !(stB.outputFilename == "") then
              match env.backend.saveFile with
              | Outcome.netFail m2 =>
                updateFirstMessage
                  (updateFirstMessage stB.messages tid (chatResponseContent body)) tid
                  (connectionErrorContent m2)
              | Outcome.resp _ _ =>
                updateFirstMessage stB.messages tid (chatResponseContent body)
            else updateFirstMessage stB.messages tid (chatResponseContent body) := by
  unfold chatOutcomeStep
  cases env.backend.chat with
  | netFail msg => rfl
  | resp status body =>
    dsimp only
    split
    · simp
    · simp only [updateMessage_scriptMode, updateMessage_outputFilename]
      split
      · cases env.backend.saveFile <;> simp
      · simp

theorem chatOutcomeStep_updates_eq (env : Env) (stB : AppState) (tid : Nat) :
    (chatOutcomeStep env stB tid).2.1
      = match env.backend.chat with
        | Outcome.netFail msg => [(tid, connectionErrorContent msg)]
        | Outcome.resp status body =>
          if status = 400 then [(tid, chatBadRequestContent body)]
          else
            if stB.scriptMode && !(stB.outputFilename == "") then
              match env.backend.saveFile with
              | Outcome.netFail m2 =>
                [(tid, chatResponseContent body), (tid, connectionErrorContent m2)]
              | Outcome.resp _ _ => [(tid, chatResponseContent body)]
            else [(tid, chatResponseContent body)] := by
  unfold chatOutcomeStep
  cases env.backend.chat with
  | netFail msg => rfl
  | resp status body =>
    dsimp only
    split
    · rfl
    · simp only [updateMessage_scriptMode, updateMessage_outputFilename]
      split
      · cases env.backend.saveFile <;> rfl
      · rfl

theorem chatOutcomeStep_reqs_eq (env : Env) (stB : AppState) (tid : Nat) :
    (chatOutcomeStep env stB tid).2.2
      = match env.backend.chat with
        | Outcome.netFail _ => []
        | Outcome.resp status body =>
          if status = 400 then []
          else
            if stB.scriptMode && !(stB.outputFilename == "") then
              [Request.saveFile stB.outputFilename
                (extractCode (chatResponseContent body))]
            else [] := by
  unfold chatOutcomeStep
  cases env.backend.chat with
  | netFail msg => rfl
  | resp status body =>
    dsimp only
    split
    · rfl
    · simp only [updateMessage_scriptMode, updateMessage_outputFilename]
      split
      · cases env.backend.saveFile <;> rfl
      · rfl

/-! ## Filter lemmas for the request streams -/

theorem ensureReqs_filter_chat (env : Env) (st : AppState) :
    (ensureReqs env st).filter isChatReq = [] := by
  rcases ensureReqs_classify env st with h | ⟨ss, h⟩ <;> simp [h, isChatReq]

theorem ensureReqs_filter_save (env : Env) (st : AppState) :
    (ensureReqs env st).filter isSaveFileReq = [] := by
  rcases ensureReqs_classify env st with h | ⟨ss, h⟩ <;> simp [h, isSaveFileReq]

theorem ensureReqs_filterMap_model (env : Env) (st : AppState) :
    (ensureReqs env st).filterMap chatModelOf = [] := by
  rcases ensureReqs_classify env st with h | ⟨ss, h⟩ <;> simp [h, chatModelOf]

theorem augmentPrompt_filter_chat (b : Backend) (deep : Bool) (text : String) :
    ((augmentPrompt b deep text).2).filter isChatReq = [] := by
  rw [List.filter_eq_nil_iff]
  intro q hq
  simp [(augmentPrompt_reqs_classify b deep text q hq).1]

theorem augmentPrompt_filter_save (b : Backend) (deep : Bool) (text : String) :
    ((augmentPrompt b deep text).2).filter isSaveFileReq = [] := by
  rw [List.filter_eq_nil_iff]
  intro q hq
  simp [(augmentPrompt_reqs_classify b deep text q hq).2.1]

theorem augmentPrompt_filterMap_model (b : Backend) (deep : Bool) (text : String) :
    ((augmentPrompt b deep text).2).filterMap chatModelOf = [] := by
  rw [List.filterMap_eq_nil_iff]
  intro q hq
  exact (augmentPrompt_reqs_classify b deep text q hq).2.2.2.2.2

theorem chatOutcomeStep_filter_chat (env : Env) (stB : AppState) (tid : Nat) :
    ((chatOutcomeStep env stB tid).2.2).filter isChatReq = [] := by
  rcases chatOutcomeStep_reqs_classify env stB tid with h | ⟨c, h⟩ <;> simp [h, isChatReq]

theorem chatOutcomeStep_filterMap_model (env : Env) (stB : AppState) (tid : Nat) :
    ((chatOutcomeStep env stB tid).2.2).filterMap chatModelOf = [] := by
  rcases chatOutcomeStep_reqs_classify env stB tid with h | ⟨c, h⟩ <;> simp [h, chatModelOf]

theorem finishChatTurn_filter_chat (st : AppState) :
    ((finishChatTurn st).2).filter isChatReq = [] := by
  rcases finishChatTurn_requests st with h | h <;> simp [h, isChatReq]

theorem finishChatTurn_filter_save (st : AppState) :
    ((finishChatTurn st).2).filter isSaveFileReq = [] := by
  rcases finishChatTurn_requests st with h | h <;> simp [h, isSaveFileReq]

theorem finishChatTurn_filterMap_model (st : AppState) :
    ((finishChatTurn st).2).filterMap chatModelOf = [] := by
  rcases finishChatTurn_requests st with h | h <;> simp [h, chatModelOf]

theorem imageConclude_filter_gen (st : AppState) (tid : Nat) (text : String)
    (o : Outcome GenImageBody) :
    ((imageConclude st tid text o).2.2).filter isGenImageReq = [] := by
  rw [List.filter_eq_nil_iff]
  intro q hq
  simp [(imageConclude_reqs_classify st tid text o q hq).1]

theorem imageConclude_filter_load (st : AppState) (tid : Nat) (text : String)
    (o : Outcome GenImageBody) :
    ((imageConclude st tid text o).2.2).filter isLoadImageReq = [] := by
  rw [List.filter_eq_nil_iff]
  intro q hq
  simp [(imageConclude_reqs_classify st tid text o q hq).2.1]

theorem imageConclude_filter_persist (st : AppState) (tid : Nat) (text : String)
    (o : Outcome GenImageBody) :
    ((imageConclude st tid text o).2.2).filter isPersistReq = [] := by
  rw [List.filter_eq_nil_iff]
  intro q hq
  simp [(imageConclude_reqs_classify st tid text o q hq).2.2.1]

theorem loadImageModel_filter_persist (st : AppState) (o : Outcome LoadBody) (name : String) :
    ((loadImageModel st o name).2).filter isPersistReq = [] := by
  unfold loadImageModel
  split
  · simp
  · cases o with
    | netFail m => simp [isPersistReq]
    | resp s b => dsimp only; split <;> simp [isPersistReq]

/-! ## Shape lemmas for the image branch -/

theorem imageBranch_isThinking (env : Env) (st : AppState) (text : String)
    (reqs0 : List Request) :
    (imageBranch env st text reqs0).state.isThinking = false := rfl

theorem imageBranch_sessions (env : Env) (st : AppState) (text : String)
    (reqs0 : List Request) :
    (imageBranch env st text reqs0).state.sessions = st.sessions := by
  unfold imageBranch
  cases env.backend.genImage1 with
  | netFail m => simp [imageConclude_state_sessions]
  | resp s b =>
    dsimp only
    split
    · simp [imageConclude_state_sessions, loadImageModel_fst_sessions]
    · simp [imageConclude_state_sessions]

theorem imageBranch_filter_persist (env : Env) (st : AppState) (text : String) :
    ((imageBranch env st text []).requests).filter isPersistReq = [] := by
  unfold imageBranch
  cases env.backend.genImage1 with
  | netFail m =>
    simp [List.filter_append, imageConclude_filter_persist, isPersistReq]
  | resp s b =>
    dsimp only
    split
    · simp [List.filter_append, imageConclude_filter_persist, loadImageModel_filter_persist,
        isPersistReq]
    · simp [List.filter_append, imageConclude_filter_persist, isPersistReq]

/-! ## The ensure-session step and session lookup -/

theorem sessionsAfterEnsure_of_isSome (st : AppState) (env : Env)
    (h : st.currentSessionId.isSome = true) :
    sessionsAfterEnsure st env = st.sessions := by
  unfold sessionsAfterEnsure
  cases hc : st.currentSessionId with
  | none => rw [hc] at h; simp at h
  | some c => rfl

theorem sessionById_afterEnsure (st : AppState) (env : Env)
    (hfound : ∀ c, st.currentSessionId = some c → (sessionById st.sessions c).isSome = true) :
    (sessionById (sessionsAfterEnsure st env) (activeCidAfterEnsure st env)).isSome = true := by
  unfold sessionsAfterEnsure activeCidAfterEnsure
  cases hc : st.currentSessionId with
  | none => simp [sessionById]
  | some c => exact hfound c hc

/-! ## Message-shape lemmas for the two branches -/

theorem finishChatTurn_messages (st : AppState) :
    (finishChatTurn st).1.messages = st.messages := by
  unfold finishChatTurn
  cases st.currentSessionId with
  | none => rfl
  | some cid =>
    dsimp only
    cases sessionById st.sessions cid <;> rfl

theorem chat_messages_shape (msgs0 : List Message) (u ph : Message) (tid : Nat) (c : String)
    (hfr : ∀ m ∈ msgs0, m.id ≠ tid) (hu : ¬ u.id = tid) (hph : ph.id = tid) :
    updateFirstMessage (msgs0 ++ [u, ph]) tid c
      = msgs0 ++ [u, { ph with content := c, isTransient := false }] := by
  have hsplit : msgs0 ++ [u, ph] = (msgs0 ++ [u]) ++ [ph] := by simp
  rw [hsplit, updateFirstMessage_snoc_hit (msgs0 ++ [u]) ph tid c ?hall hph]
  · simp
  case hall =>
    intro x hx
    rcases List.mem_append.mp hx with hx | hx
    · exact hfr x hx
    · simp at hx
      subst hx
      exact hu

theorem imageBranch_appends (env : Env) (st : AppState) (text : String)
    (reqs0 : List Request) :
    (imageBranch env st text reqs0).appends
      = [{ id := env.msgClock 0, role := "assistant", content := imageThinkingHtml,
           isTransient := true }] := rfl

theorem chatBranch_appends (env : Env) (flags : DomFlags) (st : AppState) (text : String)
    (reqs0 : List Request) :
    (chatBranch env flags st text reqs0).appends
      = [{ id := env.msgClock 0, role := "user", content := text, isTransient := false },
         { id := env.msgClock 1, role := "assistant", content := chatThinkingHtml,
           isTransient := true }] := rfl

theorem imageBranch_shape (env : Env) (st : AppState) (text : String) (reqs0 : List Request) :
    ∃ c, (imageBranch env st text reqs0).state.messages
        = updateFirstMessage
            (st.messages ++ [{ id := env.msgClock 0, role := "assistant",
                               content := imageThinkingHtml, isTransient := true }])
            (env.msgClock 0) c ∧
      (imageBranch env st text reqs0).updates = [(env.msgClock 0, c)] := by
  unfold imageBranch
  cases env.backend.genImage1 with
  | netFail m =>
    refine ⟨imageOutcomeContent text (Outcome.netFail m), ?_, ?_⟩ <;>
      simp [imageConclude_state_messages, imageConclude_updates]
  | resp s b =>
    dsimp only
    split
    · refine ⟨imageOutcomeContent text env.backend.genImage2, ?_, ?_⟩ <;>
        simp [imageConclude_state_messages, imageConclude_updates, loadImageModel_fst_messages]
    · refine ⟨imageOutcomeContent text (Outcome.resp s b), ?_, ?_⟩ <;>
        simp [imageConclude_state_messages, imageConclude_updates]

/-! ## Rejection lemmas for `handleSend` -/

theorem handleSend_rejected_basic (env : Env) (flags : DomFlags) (raw : String) (st : AppState)
    (h : jsTrim raw = "" ∨ st.isThinking = true) :
    handleSend env flags raw st = rejectedResult st false := by
  simp only [handleSend]
  rcases h with h | h <;> simp [h]

theorem handleSend_rejected_disconnected (env : Env) (flags : DomFlags) (raw : String)
    (st : AppState) (hne : ¬ jsTrim raw = "") (hth : st.isThinking = false)
    (hco : st.isConnected = false) :
    handleSend env flags raw st = rejectedResult st true := by
  simp only [handleSend]
  simp [hne, hth, hco]

/-! ## Claim C6 -/

/-- C6: for every user input, if the input is empty (after trimming), or
the dispatcher is already Thinking, or the connection is down, the
dispatch is rejected before any mutation: the state is unchanged, no
transcript entry is appended or updated, and no backend request is
issued; when the rejection is due to disconnection (nonempty input, not
Thinking, disconnected) the help/connect panel is surfaced instead. -/
theorem C6_reject_before_mutation (env : Env) (flags : DomFlags) (raw : String) (st : AppState)
    (hrej : jsTrim raw = "" ∨ st.isThinking = true ∨ st.isConnected = false) :
    (handleSend env flags raw st).state = st ∧
    (handleSend env flags raw st).requests = [] ∧
    (handleSend env flags raw st).appends = [] ∧
    (handleSend env flags raw st).updates = [] ∧
    (¬ jsTrim raw = "" → st.isThinking = false → st.isConnected = false →
      (handleSend env flags raw st).helpShown = true) := by
  by_cases h1 : jsTrim raw = ""
  · rw [handleSend_rejected_basic env flags raw st (Or.inl h1)]
    exact ⟨rfl, rfl, rfl, rfl, fun hne _ _ => absurd h1 hne⟩
  · by_cases h2 : st.isThinking = true
    · rw [handleSend_rejected_basic env flags raw st (Or.inr h2)]
      refine ⟨rfl, rfl, rfl, rfl, fun _ hth _ => ?_⟩
      rw [h2] at hth
      cases hth
    · have h2f : st.isThinking = false := by
        cases h : st.isThinking
        · rfl
        · exact absurd h h2
      have h3 : st.isConnected = false := by
        rcases hrej with h | h | h
        · exact absurd h h1
        · exact absurd h h2
        · exact h
      rw [handleSend_rejected_disconnected env flags raw st h1 h2f h3]
      exact ⟨rfl, rfl, rfl, rfl, fun _ _ _ => rfl⟩

/-- Witness for C6 at a concrete disconnected state. -/
theorem C6_reject_before_mutation_witness :
    (handleSend baseEnv ⟨false, false, false⟩ "hello" offState).state = offState ∧
    (handleSend baseEnv ⟨false, false, false⟩ "hello" offState).requests = [] ∧
    (handleSend baseEnv ⟨false, false, false⟩ "hello" offState).appends = [] ∧
    (handleSend baseEnv ⟨false, false, false⟩ "hello" offState).updates = [] ∧
    (handleSend baseEnv ⟨false, false, false⟩ "hello" offState).helpShown = true := by
  have h := C6_reject_before_mutation baseEnv ⟨false, false, false⟩ "hello" offState
    (Or.inr (Or.inr (by decide)))
  exact ⟨h.1, h.2.1, h.2.2.1, h.2.2.2.1, h.2.2.2.2 (by decide) (by decide) (by decide)⟩

/-! ## Claim C3 -/

/-- C3 counterexample: `addMessage` takes its id from `Date.now()`, so
two appends observed at the same millisecond produce two messages with
the same id: pairwise distinctness fails, and an update of that id
leaves two messages carrying it (only the first is rewritten), not
exactly one. -/
theorem C3_counterexample :
    ¬ ((((addMessage ((addMessage baseState 5 "user" "a" false).1) 5 "assistant" "b" true).1).messages.map
        Message.id).Nodup) ∧
    ((updateMessage ((addMessage ((addMessage baseState 5 "user" "a" false).1) 5 "assistant" "b" true).1)
        5 "c").messages.filter (fun m => m.id == 5)).length = 2 := by
  decide

/-- C3 (amended): provided the `Date.now()` value observed by `append`
differs from every id already in the Transcript (appends at fresh
timestamps), appending preserves pairwise-distinct ids, and a
subsequent `update(id, c2)` yields exactly one message with that id,
whose content is `c2` and whose `isTransient` is false. -/
theorem C3_fresh_append_update (st : AppState) (now : Nat) (role content c2 : String) (t : Bool)
    (hfresh : ∀ m ∈ st.messages, m.id ≠ now)
    (hnodup : (st.messages.map Message.id).Nodup) :
    (((addMessage st now role content t).1.messages.map Message.id).Nodup) ∧
    ((updateMessage (addMessage st now role content t).1 now c2).messages.filter
        (fun m => m.id == now)
      = [{ id := now, role := role, content := c2, isTransient := false }]) := by
  constructor
  · rw [addMessage_fst_messages, List.map_append, List.nodup_append]
    refine ⟨hnodup, by simp, ?_⟩
    intro x hx
    simp only [List.mem_map] at hx
    obtain ⟨m, hm, rfl⟩ := hx
    simp [hfresh m hm]
  · rw [updateMessage_messages, addMessage_fst_messages,
      updateFirstMessage_snoc_hit st.messages _ now c2 hfresh rfl]
    rw [List.filter_append]
    have h1 : st.messages.filter (fun m => m.id == now) = [] := by
      rw [List.filter_eq_nil_iff]
      intro m hm
      simp [hfresh m hm]
    rw [h1]
    simp

/-- Witness for C3 (amended) at a concrete fresh id. -/
theorem C3_fresh_append_update_witness :
    (((addMessage baseState 7 "user" "hi" false).1.messages.map Message.id).Nodup) ∧
    ((updateMessage (addMessage baseState 7 "user" "hi" false).1 7 "yo").messages.filter
        (fun m => m.id == 7)
      = [{ id := 7, role := "user", content := "yo", isTransient := false }]) :=
  C3_fresh_append_update baseState 7 "user" "hi" "yo" false (by decide) (by decide)

/-! ## Claim C4 -/

/-- C4 counterexample: session ids come from `Date.now().toString()`,
so two `create()` calls observed at the same millisecond insert two
sessions with the same id: uniqueness fails. -/
theorem C4_counterexample :
    ¬ ((createSeq baseState [7, 7]).sessions.map Session.id).Nodup := by
  decide

/-- C4 (amended): unconditionally — in particular also for
same-millisecond `create()` sequences — the most recently created
session is always the first element of the registry and becomes the
active session, and the registry's id list is the reversed list of
time-derived ids followed by the pre-existing ids.  Uniqueness of the
session ids holds under the proviso that the time-derived ids are
pairwise distinct and distinct from the ids already in the registry. -/
theorem C4_create_unique_and_front (st : AppState) (ts : List Nat) (t : Nat) :
    ((createSeq st (ts ++ [t])).sessions.map Session.id
        = ((ts ++ [t]).reverse.map (fun n => toString n)) ++ st.sessions.map Session.id) ∧
    (createSeq st (ts ++ [t])).sessions.head? = some (mkSession t) ∧
    (createSeq st (ts ++ [t])).currentSessionId = some (toString t) ∧
    ((((ts ++ [t]).reverse.map (fun n => toString n)) ++ st.sessions.map Session.id).Nodup →
      ((createSeq st (ts ++ [t])).sessions.map Session.id).Nodup) := by
  have hmap : (createSeq st (ts ++ [t])).sessions.map Session.id
      = ((ts ++ [t]).reverse.map (fun n => toString n)) ++ st.sessions.map Session.id := by
    rw [createSeq_sessions, List.map_append, List.map_map]
    rfl
  refine ⟨hmap, ?_, ?_, fun hnodup => hmap ▸ hnodup⟩
  · rw [createSeq_sessions, List.reverse_append]
    simp
  · rw [createSeq_append]
    simp [createSeq, createNewSession_fst_currentSessionId, mkSession]

/-- Witness for C4 (amended) at concrete distinct clocks, discharging
the distinct-id hypothesis of the uniqueness conjunct. -/
theorem C4_create_unique_and_front_witness :
    ((createSeq baseState ([5] ++ [9])).sessions.map Session.id
        = (([5] ++ [9]).reverse.map (fun n => toString n)) ++ baseState.sessions.map Session.id) ∧
    (createSeq baseState ([5] ++ [9])).sessions.head? = some (mkSession 9) ∧
    (createSeq baseState ([5] ++ [9])).currentSessionId = some (toString 9) ∧
    ((createSeq baseState ([5] ++ [9])).sessions.map Session.id).Nodup :=
  ⟨(C4_create_unique_and_front baseState [5] 9).1,
   (C4_create_unique_and_front baseState [5] 9).2.1,
   (C4_create_unique_and_front baseState [5] 9).2.2.1,
   (C4_create_unique_and_front baseState [5] 9).2.2.2 (by decide)⟩

/-! ## Claim C10 -/

/-- C10: for every accepted chat turn, the `model` field of the
outbound `/api/chat` request is the literal `"llama3"` when the
configured chat model id is the empty string, and the configured id
unchanged otherwise; moreover the turn issues exactly one chat
request. -/
theorem C10_chat_model_fallback (env : Env) (flags : DomFlags) (raw : String) (st : AppState)
    (hne : ¬ jsTrim raw = "") (hth : st.isThinking = false) (hco : st.isConnected = true)
    (himg : flags.imageToggle = false) :
    (handleSend env flags raw st).requests.filterMap chatModelOf
      = [if st.modelId = "" then "llama3" else st.modelId] := by
  rw [handleSend_accepted env flags raw st hne hth hco, dispatchTurn_eq, himg]
  cases hw : flags.webToggle <;>
    simp [chatBranch, hw, List.filterMap_append, ensureReqs_filterMap_model,
      augmentPrompt_filterMap_model, chatOutcomeStep_filterMap_model,
      finishChatTurn_filterMap_model, chatModelOf, jsOrS]

/-- Witness for C10 at a concrete state with an empty model id. -/
theorem C10_chat_model_fallback_witness :
    (handleSend baseEnv ⟨false, false, false⟩ "hello" noModelState).requests.filterMap chatModelOf
      = [if noModelState.modelId = "" then "llama3" else noModelState.modelId] :=
  C10_chat_model_fallback baseEnv ⟨false, false, false⟩ "hello" noModelState
    (by decide) (by decide) (by decide) (by decide)

/-! ## Claim C1 -/

/-- C1 counterexample: a concrete accepted image-mode turn ends with
`Thinking` cleared but without `recordTurn`: no session-persist request
is issued, the registry is untouched, and the active session still
holds an empty message list although the transcript gained a message. -/
theorem C1_counterexample :
    (handleSend baseEnv ⟨true, false, false⟩ "draw a cat" baseState).state.isThinking = false ∧
    (handleSend baseEnv ⟨true, false, false⟩ "draw a cat" baseState).requests.filter isPersistReq
      = [] ∧
    (handleSend baseEnv ⟨true, false, false⟩ "draw a cat" baseState).state.messages.length = 1 ∧
    (sessionById (handleSend baseEnv ⟨true, false, false⟩ "draw a cat" baseState).state.sessions
        "1").map Session.messages = some [] := by
  decide

/-- C1 (amended): every accepted chat-branch turn ends, regardless of
success, HTTP 400 or network failure, by clearing `Thinking` and
recording the turn: the transcript snapshot is copied into the first
session matching the active id, a still-default title is rewritten to a
30-character prefix of the first message, and the persist request is
the turn's final request.  Every accepted image-branch turn ends by
clearing `Thinking` only: the session registry is untouched and no
persist request is issued. -/
theorem C1_record_turn (env : Env) (flags : DomFlags) (raw : String) (st : AppState)
    (hne : ¬ jsTrim raw = "") (hth : st.isThinking = false) (hco : st.isConnected = true)
    (hfound : ∀ c, st.currentSessionId = some c → (sessionById st.sessions c).isSome = true) :
    (handleSend env flags raw st).state.isThinking = false ∧
    (flags.imageToggle = false →
      (handleSend env flags raw st).state.currentSessionId
          = some (activeCidAfterEnsure st env) ∧
      (handleSend env flags raw st).state.sessions
          = updateSessionRecord (sessionsAfterEnsure st env) (activeCidAfterEnsure st env)
              ((handleSend env flags raw st).state.messages) ∧
      (handleSend env flags raw st).requests.getLast?
          = some (Request.persistSessions ((handleSend env flags raw st).state.sessions))) ∧
    (flags.imageToggle = true → st.currentSessionId.isSome = true →
      (handleSend env flags raw st).state.sessions = st.sessions ∧
      (handleSend env flags raw st).requests.filter isPersistReq = []) := by
  rw [handleSend_accepted env flags raw st hne hth hco, dispatchTurn_eq]
  cases hflag : flags.imageToggle with
  | true =>
    rw [if_pos rfl]
    refine ⟨imageBranch_isThinking env (ensuredState env st) (jsTrim raw) (ensureReqs env st),
      ?_, ?_⟩
    · intro h
      cases h
    · intro _ hsome
      constructor
      · rw [imageBranch_sessions, ensuredState_sessions]
        exact sessionsAfterEnsure_of_isSome st env hsome
      · rw [ensureReqs_of_isSome env st hsome]
        exact imageBranch_filter_persist env (ensuredState env st) (jsTrim raw)
  | false =>
    rw [if_neg (by simp)]
    set stp := (chatOutcomeStep env (chatStB env (ensuredState env st) (jsTrim raw))
      (env.msgClock 1)).1 with hstp
    have hc1 : stp.currentSessionId = some (activeCidAfterEnsure st env) := by
      rw [hstp, chatOutcomeStep_currentSessionId]
      simp
    have hc2 : stp.isConnected = true := by
      rw [hstp, chatOutcomeStep_isConnected]
      simp [hco]
    have hsess : stp.sessions = sessionsAfterEnsure st env := by
      rw [hstp, chatOutcomeStep_sessions]
      simp
    have hc3 : (sessionById stp.sessions (activeCidAfterEnsure st env)).isSome = true := by
      rw [hsess]
      exact sessionById_afterEnsure st env hfound
    have hfin := finishChatTurn_found stp (activeCidAfterEnsure st env) hc1 hc2 hc3
    refine ⟨?_, fun _ => ⟨?_, ?_, ?_⟩, fun h => by cases h⟩
    · simp only [chatBranch]
      exact finishChatTurn_isThinking stp
    · simp only [chatBranch]
      rw [hfin]
      exact hc1
    · simp only [chatBranch]
      rw [hfin]
      dsimp only
      rw [hsess]
    · simp only [chatBranch]
      rw [hfin]
      dsimp only
      exact List.getLast?_concat _

/-- Witness for C1 (amended) at a concrete chat turn. -/
theorem C1_record_turn_witness :
    (handleSend baseEnv ⟨false, false, false⟩ "hello" baseState).state.isThinking = false ∧
    ((⟨false, false, false⟩ : DomFlags).imageToggle = false →
      (handleSend baseEnv ⟨false, false, false⟩ "hello" baseState).state.currentSessionId
          = some (activeCidAfterEnsure baseState baseEnv) ∧
      (handleSend baseEnv ⟨false, false, false⟩ "hello" baseState).state.sessions
          = updateSessionRecord (sessionsAfterEnsure baseState baseEnv)
              (activeCidAfterEnsure baseState baseEnv)
              ((handleSend baseEnv ⟨false, false, false⟩ "hello" baseState).state.messages) ∧
      (handleSend baseEnv ⟨false, false, false⟩ "hello" baseState).requests.getLast?
          = some (Request.persistSessions
              ((handleSend baseEnv ⟨false, false, false⟩ "hello" baseState).state.sessions))) ∧
    ((⟨false, false, false⟩ : DomFlags).imageToggle = true →
      baseState.currentSessionId.isSome = true →
      (handleSend baseEnv ⟨false, false, false⟩ "hello" baseState).state.sessions
          = baseState.sessions ∧
      (handleSend baseEnv ⟨false, false, false⟩ "hello" baseState).requests.filter isPersistReq
          = []) :=
  C1_record_turn baseEnv ⟨false, false, false⟩ "hello" baseState (by decide) (by decide)
    (by decide) (by decide)

/-! ## Claim C8 -/

/-- C8 counterexample: when the first fenced block of the final content
has an empty body (`"Hi\n```lua\n```"`), the regex capture is the falsy
empty string, so the code submits the whole content to the file-save
endpoint, not the (empty) body of the first fenced block as the claim
states. -/
theorem C8_counterexample :
    (handleSend envEmptyFence ⟨false, false, false⟩ "write code" scriptState).requests.filter
        isSaveFileReq
      = [Request.saveFile "script.lua" "Hi\n```lua\n```"] ∧
    firstFenceCapture ("Hi\n```lua\n```").toList = some [] := by
  decide

/-- C8 (amended): in script mode with an output filename configured,
the content submitted to the file-save endpoint is the body of the
first fenced code block of the final assistant content when that body
is nonempty, and the whole content when there is no fenced block or the
first block's body is empty; in particular for final content
`"Sure:\n```lua\nprint(1)\n```"` the saved content is `"print(1)\n"`. -/
theorem C8_script_save_extracted (env : Env) (flags : DomFlags) (raw : String) (st : AppState)
    (status : Nat) (body : ChatBody)
    (hne : ¬ jsTrim raw = "") (hth : st.isThinking = false) (hco : st.isConnected = true)
    (himg : flags.imageToggle = false)
    (hscript : st.scriptMode = true) (hout : ¬ st.outputFilename = "")
    (hchat : env.backend.chat = Outcome.resp status body) (hst : ¬ status = 400) :
    (handleSend env flags raw st).requests.filter isSaveFileReq
      = [Request.saveFile st.outputFilename (extractCode (chatResponseContent body))] ∧
    extractCode "Sure:\n```lua\nprint(1)\n```" = "print(1)\n" := by
  refine ⟨?_, by decide⟩
  rw [handleSend_accepted env flags raw st hne hth hco, dispatchTurn_eq, himg]
  cases hw : flags.webToggle <;>
    simp [chatBranch, hw, List.filter_append, ensureReqs_filter_save,
      augmentPrompt_filter_save, finishChatTurn_filter_save,
      chatOutcomeStep_reqs_eq, hchat, hst, hscript, hout, isSaveFileReq]

/-- Witness for C8 (amended) at the concrete fenced-block scenario. -/
theorem C8_script_save_extracted_witness :
    (handleSend envFence ⟨false, false, false⟩ "make a script" scriptState).requests.filter
        isSaveFileReq
      = [Request.saveFile scriptState.outputFilename
          (extractCode (chatResponseContent fenceChatBody))] ∧
    extractCode "Sure:\n```lua\nprint(1)\n```" = "print(1)\n" :=
  C8_script_save_extracted envFence ⟨false, false, false⟩ "make a script" scriptState 200
    fenceChatBody (by decide) (by decide) (by decide) (by decide) (by decide) (by decide)
    (by decide) (by decide)

/-! ## Claim C5 -/

/-- C5: in image mode, when the first generate-image call returns HTTP
400 and a known image model id is configured, exactly one load call is
issued followed by exactly one retried generate call (two generate
calls and one load call in total, in that order), and the placeholder
is replaced exactly once, with the rendering of the second attempt's
outcome: no third attempt exists. -/
theorem C5_image_retry_once (env : Env) (flags : DomFlags) (raw : String) (st : AppState)
    (body : GenImageBody)
    (hne : ¬ jsTrim raw = "") (hth : st.isThinking = false) (hco : st.isConnected = true)
    (himg : flags.imageToggle = true) (hcid : st.currentSessionId.isSome = true)
    (hgen1 : env.backend.genImage1 = Outcome.resp 400 body) (hid : ¬ st.imageModelId = "") :
    ((handleSend env flags raw st).requests.take 3
      = [Request.genImage (jsTrim raw) st.imageSubfolder st.imageModelsPath,
         Request.loadImage st.imageModelId st.imageModelsPath,
         Request.genImage (jsTrim raw) st.imageSubfolder st.imageModelsPath]) ∧
    ((handleSend env flags raw st).requests.filter isGenImageReq).length = 2 ∧
    ((handleSend env flags raw st).requests.filter isLoadImageReq).length = 1 ∧
    (handleSend env flags raw st).updates
      = [(env.msgClock 0, imageOutcomeContent (jsTrim raw) env.backend.genImage2)] := by
  rw [handleSend_accepted env flags raw st hne hth hco, dispatchTurn_eq, himg]
  refine ⟨?_, ?_, ?_, ?_⟩ <;>
    simp [imageBranch, ensureReqs_of_isSome env st hcid, hgen1, hid, hco,
      loadImageModel_reqs, loadImageModel_fst_imageSubfolder, loadImageModel_fst_imageModelsPath,
      imageConclude_updates, imageConclude_filter_gen, imageConclude_filter_load,
      List.filter_append, isGenImageReq, isLoadImageReq]

/-! ## Claim C2 -/

/-- C2 counterexample: a concrete accepted image-mode turn appends only
the assistant placeholder — no user message at all — contradicting the
claim that in both modes the user's message is appended to the
Transcript before the placeholder. -/
theorem C2_counterexample :
    (handleSend baseEnv ⟨true, false, false⟩ "draw a cat" baseState).appends.map Message.role
      = ["assistant"] ∧
    ((handleSend baseEnv ⟨true, false, false⟩ "draw a cat" baseState).state.messages.filter
        (fun m => m.role == "user")).length = 0 ∧
    ¬ (handleSend baseEnv ⟨true, false, false⟩ "draw a cat" baseState).requests = [] := by
  decide

/-- C2 (amended): for every accepted chat-mode turn whose placeholder
and user-message timestamps are fresh and distinct, and which does not
hit the script-save network-failure path, the user's message is
appended before the assistant placeholder and the placeholder is
replaced exactly once (one update, targeting the placeholder id, whose
final entry is non-transient).  In image mode no user message is
appended: only the placeholder is, and it is replaced exactly once. -/
theorem C2_append_order_single_replace (env : Env) (flags : DomFlags) (raw : String)
    (st : AppState)
    (hne : ¬ jsTrim raw = "") (hth : st.isThinking = false) (hco : st.isConnected = true)
    (hfresh0 : ∀ m ∈ st.messages, m.id ≠ env.msgClock 0)
    (hfresh1 : ∀ m ∈ st.messages, m.id ≠ env.msgClock 1)
    (hne01 : ¬ env.msgClock 0 = env.msgClock 1)
    (hsave : saveFailSecondUpdate env st = false) :
    (flags.imageToggle = false →
      (handleSend env flags raw st).appends.map Message.role = ["user", "assistant"] ∧
      (handleSend env flags raw st).state.messages.map Message.id
        = (transcriptAfterEnsure st).map Message.id ++ [env.msgClock 0, env.msgClock 1] ∧
      (handleSend env flags raw st).state.messages.map Message.role
        = (transcriptAfterEnsure st).map Message.role ++ ["user", "assistant"] ∧
      (handleSend env flags raw st).state.messages.map Message.isTransient
        = (transcriptAfterEnsure st).map Message.isTransient ++ [false, false] ∧
      ((handleSend env flags raw st).state.messages.map Message.content).take
          ((transcriptAfterEnsure st).length + 1)
        = (transcriptAfterEnsure st).map Message.content ++ [jsTrim raw] ∧
      (handleSend env flags raw st).updates.map Prod.fst = [env.msgClock 1]) ∧
    (flags.imageToggle = true →
      (handleSend env flags raw st).appends.map Message.role = ["assistant"] ∧
      (handleSend env flags raw st).state.messages.map Message.id
        = (transcriptAfterEnsure st).map Message.id ++ [env.msgClock 0] ∧
      (handleSend env flags raw st).state.messages.map Message.isTransient
        = (transcriptAfterEnsure st).map Message.isTransient ++ [false] ∧
      (handleSend env flags raw st).updates.map Prod.fst = [env.msgClock 0]) := by
  rw [handleSend_accepted env flags raw st hne hth hco, dispatchTurn_eq]
  have hfr0 : ∀ m ∈ transcriptAfterEnsure st, m.id ≠ env.msgClock 0 :=
    fun m hm => hfresh0 m (transcriptAfterEnsure_sub st m hm)
  have hfr1 : ∀ m ∈ transcriptAfterEnsure st, m.id ≠ env.msgClock 1 :=
    fun m hm => hfresh1 m (transcriptAfterEnsure_sub st m hm)
  cases hflag : flags.imageToggle with
  | true =>
    rw [if_pos rfl]
    refine ⟨?_, ?_⟩
    · intro h
      cases h
    intro _
    obtain ⟨c, hm, hu⟩ :=
      imageBranch_shape env (ensuredState env st) (jsTrim raw) (ensureReqs env st)
    rw [ensuredState_messages] at hm
    rw [updateFirstMessage_snoc_hit _ _ _ _ hfr0 rfl] at hm
    refine ⟨?_, ?_, ?_, ?_⟩
    · rw [imageBranch_appends]
      rfl
    · rw [hm]
      simp
    · rw [hm]
      simp
    · rw [hu]
      rfl
  | false =>
    rw [if_neg (by simp)]
    constructor
    case right =>
      intro h
      cases h
    intro _
    have hmsgs := chatOutcomeStep_msgs_eq env (chatStB env (ensuredState env st) (jsTrim raw))
      (env.msgClock 1)
    have hupds := chatOutcomeStep_updates_eq env (chatStB env (ensuredState env st) (jsTrim raw))
      (env.msgClock 1)
    have hBmsgs : (chatStB env (ensuredState env st) (jsTrim raw)).messages
        = transcriptAfterEnsure st
          ++ [{ id := env.msgClock 0, role := "user", content := jsTrim raw,
                isTransient := false },
              { id := env.msgClock 1, role := "assistant", content := chatThinkingHtml,
                isTransient := true }] := by
      simp
    have hshape : ∃ c,
        (chatOutcomeStep env (chatStB env (ensuredState env st) (jsTrim raw))
            (env.msgClock 1)).1.messages
          = transcriptAfterEnsure st
            ++ [{ id := env.msgClock 0, role := "user", content := jsTrim raw,
                  isTransient := false },
                { id := env.msgClock 1, role := "assistant", content := c,
                  isTransient := false }] ∧
        ((chatOutcomeStep env (chatStB env (ensuredState env st) (jsTrim raw))
            (env.msgClock 1)).2.1).map Prod.fst = [env.msgClock 1] := by
      cases hchat : env.backend.chat with
      | netFail msg =>
        rw [hchat] at hmsgs hupds
        dsimp only at hmsgs hupds
        refine ⟨connectionErrorContent msg, ?_, ?_⟩
        · rw [hmsgs, hBmsgs, chat_messages_shape _ _ _ _ _ hfr1 hne01 rfl]
        · rw [hupds]
          rfl
      | resp status body =>
        rw [hchat] at hmsgs hupds
        dsimp only at hmsgs hupds
        by_cases hst : status = 400
        · rw [if_pos hst] at hmsgs hupds
          refine ⟨chatBadRequestContent body, ?_, ?_⟩
          · rw [hmsgs, hBmsgs, chat_messages_shape _ _ _ _ _ hfr1 hne01 rfl]
          · rw [hupds]
            rfl
        · rw [if_neg hst] at hmsgs hupds
          by_cases hcond : ((chatStB env (ensuredState env st) (jsTrim raw)).scriptMode
              && !((chatStB env (ensuredState env st) (jsTrim raw)).outputFilename == "")) = true
          · rw [if_pos hcond] at hmsgs hupds
            cases hsf : env.backend.saveFile with
            | netFail m2 =>
              exfalso
              unfold saveFailSecondUpdate at hsave
              rw [hchat, hsf] at hsave
              simp only [chatStB_scriptMode, chatStB_outputFilename, ensuredState_scriptMode,
                ensuredState_outputFilename] at hcond
              simp [Bool.and_eq_true, hst] at hsave hcond
              simp [hcond.1, hcond.2] at hsave
            | resp s2 b2 =>
              rw [hsf] at hmsgs hupds
              refine ⟨chatResponseContent body, ?_, ?_⟩
              · rw [hmsgs, hBmsgs, chat_messages_shape _ _ _ _ _ hfr1 hne01 rfl]
              · rw [hupds]
                rfl
          · rw [if_neg hcond] at hmsgs hupds
            refine ⟨chatResponseContent body, ?_, ?_⟩
            · rw [hmsgs, hBmsgs, chat_messages_shape _ _ _ _ _ hfr1 hne01 rfl]
            · rw [hupds]
              rfl
    obtain ⟨c, hm, hu⟩ := hshape
    have hstate : (chatBranch env flags (ensuredState env st) (jsTrim raw)
          (ensureReqs env st)).state.messages
        = (chatOutcomeStep env (chatStB env (ensuredState env st) (jsTrim raw))
            (env.msgClock 1)).1.messages :=
      finishChatTurn_messages _
    have hupdates : (chatBranch env flags (ensuredState env st) (jsTrim raw)
          (ensureReqs env st)).updates
        = ((chatOutcomeStep env (chatStB env (ensuredState env st) (jsTrim raw))
            (env.msgClock 1)).2.1) := rfl
    refine ⟨?_, ?_, ?_, ?_, ?_, ?_⟩
    · rw [chatBranch_appends]
      rfl
    · rw [hstate, hm]
      simp
    · rw [hstate, hm]
      simp
    · rw [hstate, hm]
      simp
    · rw [hstate, hm]
      rw [List.map_append]
      rw [show (transcriptAfterEnsure st).length
          = ((transcriptAfterEnsure st).map Message.content).length from
          (List.length_map _ _).symm]
      exact take_length_succ_append _ _ _
    · rw [hupdates, hu]

/-- Witness for C2 (amended) at a concrete chat turn. -/
theorem C2_append_order_single_replace_witness :
    ((⟨false, false, false⟩ : DomFlags).imageToggle = false →
      (handleSend baseEnv ⟨false, false, false⟩ "hello" baseState).appends.map Message.role
        = ["user", "assistant"] ∧
      (handleSend baseEnv ⟨false, false, false⟩ "hello" baseState).state.messages.map Message.id
        = (transcriptAfterEnsure baseState).map Message.id
          ++ [baseEnv.msgClock 0, baseEnv.msgClock 1] ∧
      (handleSend baseEnv ⟨false, false, false⟩ "hello" baseState).state.messages.map Message.role
        = (transcriptAfterEnsure baseState).map Message.role ++ ["user", "assistant"] ∧
      (handleSend baseEnv ⟨false, false, false⟩ "hello"
          baseState).state.messages.map Message.isTransient
        = (transcriptAfterEnsure baseState).map Message.isTransient ++ [false, false] ∧
      ((handleSend baseEnv ⟨false, false, false⟩ "hello"
          baseState).state.messages.map Message.content).take
          ((transcriptAfterEnsure baseState).length + 1)
        = (transcriptAfterEnsure baseState).map Message.content ++ [jsTrim "hello"] ∧
      (handleSend baseEnv ⟨false, false, false⟩ "hello" baseState).updates.map Prod.fst
        = [baseEnv.msgClock 1]) ∧
    ((⟨false, false, false⟩ : DomFlags).imageToggle = true →
      (handleSend baseEnv ⟨false, false, false⟩ "hello" baseState).appends.map Message.role
        = ["assistant"] ∧
      (handleSend baseEnv ⟨false, false, false⟩ "hello" baseState).state.messages.map Message.id
        = (transcriptAfterEnsure baseState).map Message.id ++ [baseEnv.msgClock 0] ∧
      (handleSend baseEnv ⟨false, false, false⟩ "hello"
          baseState).state.messages.map Message.isTransient
        = (transcriptAfterEnsure baseState).map Message.isTransient ++ [false] ∧
      (handleSend baseEnv ⟨false, false, false⟩ "hello" baseState).updates.map Prod.fst
        = [baseEnv.msgClock 0]) :=
  C2_append_order_single_replace baseEnv ⟨false, false, false⟩ "hello" baseState
    (by decide) (by decide) (by decide) (by decide) (by decide) (by decide) (by decide)

/-! ## Claims C7 and C9 -/

/-- C7: in shallow augmentation mode, submitting "weather today" when
the search returns the single result WX/Sunny produces exactly one
outbound chat request, in which the just-asked user message carries
`"Context:\nSource: WX\nSnippet: Sunny\n\nTask: weather today"`, every
other outbound message keeps its stored content verbatim, and
transient entries are excluded. -/
theorem C7_shallow_augmented_prompt (env : Env) (st : AppState) (raw : String)
    (htext : jsTrim raw = "weather today")
    (hth : st.isThinking = false) (hco : st.isConnected = true)
    (hsearch : env.backend.search = Outcome.resp 200 { results := some [wxHit] })
    (hfresh : ∀ m ∈ st.messages, m.id ≠ env.msgClock 0) :
    (handleSend env ⟨false, true, false⟩ raw st).requests.filter isChatReq
      = [Request.chat
          (OutMsg.mk "system" (systemPromptOf st)
            :: (((transcriptAfterEnsure st).filter (fun m => !m.isTransient)).map
                 (fun m => OutMsg.mk m.role m.content)
              ++ [OutMsg.mk "user" "Context:\nSource: WX\nSnippet: Sunny\n\nTask: weather today"]))
          (jsOrS st.modelId "llama3") st.inferenceMode st.ollamaUrl st.temperature
          st.maxTokens] := by
  have hne : ¬ jsTrim raw = "" := by rw [htext]; decide
  rw [handleSend_accepted env ⟨false, true, false⟩ raw st hne hth hco, dispatchTurn_eq, htext]
  have haug := augmentPrompt_shallow_single env.backend "weather today" "WX" "http://wx" "Sunny"
    (by rw [hsearch]; rfl)
  have hstr : ("Context:\nSource: " ++ "WX" ++ "\nSnippet: " ++ "Sunny" ++ "\n\nTask: "
      ++ "weather today" : String)
      = "Context:\nSource: WX\nSnippet: Sunny\n\nTask: weather today" := by decide
  have hfresh2 : ∀ m ∈ transcriptAfterEnsure st, m.id ≠ env.msgClock 0 :=
    fun m hm => hfresh m (transcriptAfterEnsure_sub st m hm)
  have hhist := history_substitution (transcriptAfterEnsure st)
    { id := env.msgClock 0, role := "user", content := "weather today", isTransient := false }
    (env.msgClock 0) "Context:\nSource: WX\nSnippet: Sunny\n\nTask: weather today"
    hfresh2 rfl rfl
  have hsys : systemPromptOf (chatStB env (ensuredState env st) "weather today")
      = systemPromptOf st := by
    unfold systemPromptOf
    simp
  simp [chatBranch, haug, hstr, List.filter_append, ensureReqs_filter_chat,
    augmentPrompt_filter_chat, chatOutcomeStep_filter_chat, finishChatTurn_filter_chat,
    isChatReq, hhist, hsys]
  intro a ha _ hid
  exact absurd hid (hfresh2 a ha)

/-- Witness for C7 at the concrete scenario state. -/
theorem C7_shallow_augmented_prompt_witness :
    (handleSend envWX ⟨false, true, false⟩ "weather today" baseState).requests.filter isChatReq
      = [Request.chat
          (OutMsg.mk "system" (systemPromptOf baseState)
            :: (((transcriptAfterEnsure baseState).filter (fun m => !m.isTransient)).map
                 (fun m => OutMsg.mk m.role m.content)
              ++ [OutMsg.mk "user" "Context:\nSource: WX\nSnippet: Sunny\n\nTask: weather today"]))
          (jsOrS baseState.modelId "llama3") baseState.inferenceMode baseState.ollamaUrl
          baseState.temperature baseState.maxTokens] :=
  C7_shallow_augmented_prompt envWX baseState "weather today" (by decide) (by decide)
    (by decide) (by decide) (by decide)

/-- C9: with web augmentation enabled, whenever the search fails, the
result list is missing or empty, or a deep-mode page retrieval fails,
the turn still proceeds: exactly one chat request is issued whose user
message carries the raw, unaugmented prompt, the Thinking flag is
cleared at the end, and the progress indicator, shown at the start, is
hidden at the end regardless of outcome. -/
theorem C9_augmentation_fallback (env : Env) (flags : DomFlags) (raw : String) (st : AppState)
    (hne : ¬ jsTrim raw = "") (hth : st.isThinking = false) (hco : st.isConnected = true)
    (himg : flags.imageToggle = false) (hweb : flags.webToggle = true)
    (hfell : augmentationFell env.backend flags.chromeToggle = true)
    (hfresh : ∀ m ∈ st.messages, m.id ≠ env.msgClock 0) :
    (handleSend env flags raw st).requests.filter isChatReq
      = [Request.chat
          (OutMsg.mk "system" (systemPromptOf st)
            :: (((transcriptAfterEnsure st).filter (fun m => !m.isTransient)).map
                 (fun m => OutMsg.mk m.role m.content)
              ++ [OutMsg.mk "user" (jsTrim raw)]))
          (jsOrS st.modelId "llama3") st.inferenceMode st.ollamaUrl st.temperature
          st.maxTokens] ∧
    (handleSend env flags raw st).state.isThinking = false ∧
    (handleSend env flags raw st).webIndicatorShown = true ∧
    (handleSend env flags raw st).webIndicatorFinalVisible = false := by
  rw [handleSend_accepted env flags raw st hne hth hco, dispatchTurn_eq, himg]
  have haug := augmentPrompt_raw_of_fell env.backend flags.chromeToggle (jsTrim raw) hfell
  have hfresh2 : ∀ m ∈ transcriptAfterEnsure st, m.id ≠ env.msgClock 0 :=
    fun m hm => hfresh m (transcriptAfterEnsure_sub st m hm)
  have hhist := history_substitution (transcriptAfterEnsure st)
    { id := env.msgClock 0, role := "user", content := jsTrim raw, isTransient := false }
    (env.msgClock 0) (jsTrim raw) hfresh2 rfl rfl
  have hsys : systemPromptOf (chatStB env (ensuredState env st) (jsTrim raw))
      = systemPromptOf st := by
    unfold systemPromptOf
    simp
  refine ⟨?_, ?_, ?_, ?_⟩
  · simp [chatBranch, hweb, haug, List.filter_append, ensureReqs_filter_chat,
      augmentPrompt_filter_chat, chatOutcomeStep_filter_chat, finishChatTurn_filter_chat,
      isChatReq, hhist, hsys]
    intro a ha _ hid
    exact absurd hid (hfresh2 a ha)
  · simp [chatBranch, finishChatTurn_isThinking]
  · simp [chatBranch, hweb]
  · simp [chatBranch]

/-- Witness for C9 at a concrete failing-search environment. -/
theorem C9_augmentation_fallback_witness :
    (handleSend envSearchFail ⟨false, true, false⟩ "weather today" baseState).requests.filter
        isChatReq
      = [Request.chat
          (OutMsg.mk "system" (systemPromptOf baseState)
            :: (((transcriptAfterEnsure baseState).filter (fun m => !m.isTransient)).map
                 (fun m => OutMsg.mk m.role m.content)
              ++ [OutMsg.mk "user" (jsTrim "weather today")]))
          (jsOrS baseState.modelId "llama3") baseState.inferenceMode baseState.ollamaUrl
          baseState.temperature baseState.maxTokens] ∧
    (handleSend envSearchFail ⟨false, true, false⟩ "weather today" baseState).state.isThinking
      = false ∧
    (handleSend envSearchFail ⟨false, true, false⟩ "weather today" baseState).webIndicatorShown
      = true ∧
    (handleSend envSearchFail ⟨false, true, false⟩ "weather today"
        baseState).webIndicatorFinalVisible = false :=
  C9_augmentation_fallback envSearchFail ⟨false, true, false⟩ "weather today" baseState
    (by decide) (by decide) (by decide) (by decide) (by decide) (by decide) (by decide)

/-- Witness for C5 at the concrete 400-then-retry scenario. -/
theorem C5_image_retry_once_witness :
    ((handleSend env400 ⟨true, false, false⟩ "draw a cat" baseState).requests.take 3
      = [Request.genImage (jsTrim "draw a cat") baseState.imageSubfolder baseState.imageModelsPath,
         Request.loadImage baseState.imageModelId baseState.imageModelsPath,
         Request.genImage (jsTrim "draw a cat") baseState.imageSubfolder baseState.imageModelsPath]) ∧
    ((handleSend env400 ⟨true, false, false⟩ "draw a cat" baseState).requests.filter
        isGenImageReq).length = 2 ∧
    ((handleSend env400 ⟨true, false, false⟩ "draw a cat" baseState).requests.filter
        isLoadImageReq).length = 1 ∧
    (handleSend env400 ⟨true, false, false⟩ "draw a cat" baseState).updates
      = [(env400.msgClock 0,
          imageOutcomeContent (jsTrim "draw a cat") env400.backend.genImage2)] :=
  C5_image_retry_once env400 ⟨true, false, false⟩ "draw a cat" baseState noModelBody
    (by decide) (by decide) (by decide) (by decide) (by decide) (by decide) (by decide)

end Nexus
